import Mathlib

/-!
# Evidence aggregation of `netaverse-backend`

A shallow embedding of `IndianCivicRAG` (`src/functions/ragFetcher.js`): the
six evidence providers, the `Map` used as cache, and `fetchRelevantData`.

* JavaScript strings are Lean `String`s, `Date.now()` readings are `Int`s
  (milliseconds), the `Map` is an insertion-ordered association list.
* A provider call returns a promise; only the way the promise settles matters
  to the caller, so a provider is a function from the query to `Settled`.
  The instance's six methods are the environment `Env`; `builtin` holds the
  methods as written in the source, other environments stand for replaced
  methods (a real fetch, a test double).
* `fetchRelevantData` is state passing: it takes the cache and the two clock
  readings it makes, and returns the value, the new cache and the provider
  methods it called, in call order.
-/

namespace Netaverse

/-! ## Data model -/

/-- The object a provider resolves to: `{source, data, url}`. -/
structure EvidenceItem where
  source : String
  data : String
  url : String
deriving DecidableEq, Repr

/-- The object `fetchRelevantData` returns. Both object literals of the source
have `source` and `data`; the literal at line 166 has the property `url`, the
literal at line 182 has the property `urls`. `none` is an absent property
(reading it gives `undefined`). -/
structure Bundle where
  source : String
  data : String
  url : Option String
  urls : Option (List String)
deriving DecidableEq, Repr

/-- The value stored in the cache map: `{data, timestamp}`. -/
structure CacheEntry where
  data : Bundle
  timestamp : Int
deriving DecidableEq, Repr

/-- The `Map` of the instance, as the list of its entries in insertion order. -/
abbrev Cache := List (String × CacheEntry)

/-- `Map.prototype.get`: the value under `key`, `none` for `undefined`. -/
def Cache.get : Cache → String → Option CacheEntry
  | [], _ => none
  | (k, e) :: rest, key => if k = key then some e else Cache.get rest key

/-- `Map.prototype.set`: replaces the value of an existing key where it stands,
appends a new key at the end. -/
def Cache.set : Cache → String → CacheEntry → Cache
  | [], key, entry => [(key, entry)]
  | (k, e) :: rest, key, entry =>
    if k = key then (k, entry) :: rest else (k, e) :: Cache.set rest key entry

/-- `this.cacheTimeout = 30 * 60 * 1000`. -/
def cacheTimeout : Int := 30 * 60 * 1000

/-! ## Providers -/

/-- The six provider methods of the class. -/
inductive Provider
  | fetchPRSData
  | fetchMyNetaData
  | fetchIndiaCodeData
  | fetchPIBFactCheck
  | fetchGovernmentData
  | fetchECIData
deriving DecidableEq, Repr

/-- How the promise returned by a provider call settles: fulfilled with an item
or with `null`, or rejected (the provider raised). The six methods of the class
are declared `async`: a call always returns a promise, and an exception inside
the method is a rejection of it. -/
inductive Settled
  | fulfilled (value : Option EvidenceItem)
  | rejected
deriving DecidableEq, Repr

/-- The provider methods of one instance. -/
abbrev Env := Provider → String → Settled

/-- `fetchPRSData` as written: the `try` block only builds the object, so the
`catch` returning `null` is never entered for a string query. -/
def fetchPRSData (query : String) : Settled :=
  .fulfilled (some
    { source := "PRS Legislative Research"
      data := "Legislative analysis and bill information for: " ++ query
      url := "https://prsindia.org" })

/-- `fetchMyNetaData` as written. -/
def fetchMyNetaData (query : String) : Settled :=
  .fulfilled (some
    { source := "MyNeta (ADR)"
      data := "Representative profiles, criminal cases, and asset information for: " ++ query
      url := "https://myneta.info" })

/-- `fetchIndiaCodeData` as written. -/
def fetchIndiaCodeData (query : String) : Settled :=
  .fulfilled (some
    { source := "India Code"
      data := "Legal acts, sections, and amendments related to: " ++ query
      url := "https://indiacode.nic.in" })

/-- `fetchPIBFactCheck` as written. -/
def fetchPIBFactCheck (claim : String) : Settled :=
  .fulfilled (some
    { source := "PIB Fact Check"
      data := "Official government fact-check and verification for: " ++ claim
      url := "https://pib.gov.in" })

/-- `fetchGovernmentData` as written. -/
def fetchGovernmentData (query : String) : Settled :=
  .fulfilled (some
    { source := "Data.gov.in"
      data := "Government schemes, statistics, and public data for: " ++ query
      url := "https://data.gov.in" })

/-- `fetchECIData` as written. -/
def fetchECIData (query : String) : Settled :=
  .fulfilled (some
    { source := "Election Commission of India"
      data := "Electoral data and constituency information for: " ++ query
      url := "https://eci.gov.in" })

/-- The methods of an unmodified `IndianCivicRAG` instance. -/
def builtin : Env
  | .fetchPRSData => fetchPRSData
  | .fetchMyNetaData => fetchMyNetaData
  | .fetchIndiaCodeData => fetchIndiaCodeData
  | .fetchPIBFactCheck => fetchPIBFactCheck
  | .fetchGovernmentData => fetchGovernmentData
  | .fetchECIData => fetchECIData

/-! ## Aggregation -/

/-- `await p`: the fulfilment value, or the exception thrown at the `await`. -/
def await (p : Settled) : Except Unit (Option EvidenceItem) :=
  match p with
  | .fulfilled v => .ok v
  | .rejected => .error ()

/-- `await Promise.all([p, q])` destructured into a pair: rejects as soon as
one of the two promises rejects. -/
def awaitAll (p q : Settled) : Except Unit (Option EvidenceItem × Option EvidenceItem) :=
  match p, q with
  | .fulfilled a, .fulfilled b => .ok (a, b)
  | _, _ => .error ()

/-- `if (x) results.push(x)`: an item object is truthy, `null` is not. -/
def pushIf (results : List EvidenceItem) (x : Option EvidenceItem) : List EvidenceItem :=
  match x with
  | some r => results ++ [r]
  | none => results

/-- The `switch (intent)` statement inside the `try` (lines 131-159), started
with `results = []`. The first component lists the provider methods called, in
call order: both calls of a `Promise.all` array are made before the `await`.
The second is `results` when the block completes, or the exception that left
it; every `push` comes after the only `await` of its case, so an exception
leaves `results` empty. The call list is that of methods that return a promise,
as `async` methods do; a replaced method that throws before it returns one
would, as first element of the array, end the array before the second call. -/
def switchIntent (env : Env) (query intent : String) :
    List Provider × Except Unit (List EvidenceItem) :=
  if intent = "law" then
    ([Provider.fetchIndiaCodeData, Provider.fetchPRSData],
      match awaitAll (env .fetchIndiaCodeData query) (env .fetchPRSData query) with
      | .ok (lawData, prsData) => .ok (pushIf (pushIf [] lawData) prsData)
      | .error e => .error e)
  else if intent = "representative" then
    ([Provider.fetchMyNetaData, Provider.fetchECIData],
      match awaitAll (env .fetchMyNetaData query) (env .fetchECIData query) with
      | .ok (repData, eciData) => .ok (pushIf (pushIf [] repData) eciData)
      | .error e => .error e)
  else if intent = "fact-check" then
    ([Provider.fetchPIBFactCheck],
      match await (env .fetchPIBFactCheck query) with
      | .ok factData => .ok (pushIf [] factData)
      | .error e => .error e)
  else
    ([Provider.fetchGovernmentData],
      match await (env .fetchGovernmentData query) with
      | .ok generalData => .ok (pushIf [] generalData)
      | .error e => .error e)

/-- `Array.prototype.join` on an array of strings. -/
def join (sep : String) : List String → String
  | [] => ""
  | [a] => a
  | a :: b :: rest => a ++ sep ++ join sep (b :: rest)

/-- The object literal of lines 166-170. -/
def fallback : Bundle :=
  { source := "System"
    data := "Verified public information is currently unavailable for this topic."
    url := some ""
    urls := none }

/-- The object literal of lines 182-186; `filter(Boolean)` keeps the strings
that are not empty. -/
def combine (results : List EvidenceItem) : Bundle :=
  { source := join ", " (results.map fun r => r.source)
    data := join "\n\n" (results.map fun r => r.data)
    url := none
    urls := some ((results.map fun r => r.url).filter fun u => u ≠ "") }

/-- What one call of `fetchRelevantData` does: the value its promise is
fulfilled with, the cache afterwards, and the provider methods it called. -/
structure FetchResult where
  value : Bundle
  cache : Cache
  invoked : List Provider
deriving DecidableEq, Repr

/-- The template literal of line 120. -/
def cacheKey (intent query : String) : String :=
  intent ++ "_" ++ query

/-- The test of line 124, `cached && Date.now() - cached.timestamp <
this.cacheTimeout`, giving `cached.data` when it holds. -/
def liveEntry (cache : Cache) (key : String) (now : Int) : Option Bundle :=
  match cache.get key with
  | some cached => if now - cached.timestamp < cacheTimeout then some cached.data else none
  | none => none

/-- The `try`/`catch` of lines 130-162: `results` after it. The `catch` only
logs, so an exception leaves `results` as the `switch` had it, which is empty. -/
def tryResults (env : Env) (query intent : String) : List EvidenceItem :=
  match (switchIntent env query intent).2 with
  | .ok results => results
  | .error _ => []

/-- `IndianCivicRAG.fetchRelevantData(query, intent)` (lines 119-195) on an
instance with methods `env` and cache `cache`. `now` is the reading of
`Date.now()` at line 124 and `stamp` the reading at line 175 or 191. -/
def fetchRelevantData (env : Env) (now stamp : Int) (cache : Cache)
    (query intent : String) : FetchResult :=
  match liveEntry cache (cacheKey intent query) now with
  | some data => { value := data, cache := cache, invoked := [] }
  | none =>
    let results := tryResults env query intent
    if results.length = 0 then
      { value := fallback
        cache := cache.set (cacheKey intent query) { data := fallback, timestamp := stamp }
        invoked := (switchIntent env query intent).1 }
    else
      { value := combine results
        cache := cache.set (cacheKey intent query) { data := combine results, timestamp := stamp }
        invoked := (switchIntent env query intent).1 }

/-! ## Environments used in the examples -/

/-- Every method replaced by one that resolves to `null`. -/
def allNull : Env := fun _ _ => .fulfilled none

/-- The source's methods, with `fetchPRSData` replaced by one that raises. -/
def prsRaises : Env := fun p q =>
  if p = Provider.fetchPRSData then .rejected else builtin p q

/-- The source's methods, with `fetchPRSData` replaced by one that resolves to `null`. -/
def prsNull : Env := fun p q =>
  if p = Provider.fetchPRSData then .fulfilled none else builtin p q

/-- The source's methods, with `fetchPIBFactCheck` replaced by one that resolves
to an item whose `data` is the empty string. -/
def pibEmptyData : Env := fun p q =>
  if p = Provider.fetchPIBFactCheck then
    .fulfilled (some { source := "PIB Fact Check", data := "", url := "https://pib.gov.in" })
  else builtin p q

/-! ## Sequences of calls and predicates on bundles -/

/-- Further calls `fetchRelevantData(query, intent)` on the same instance, one
after the other: each comes with the provider methods in force and its two
clock readings, and runs on the cache the call before it left. -/
def fetchAgain (query intent : String) : Cache → List (Env × Int × Int) → List FetchResult
  | _, [] => []
  | cache, (env, now, stamp) :: rest =>
    fetchRelevantData env now stamp cache query intent
      :: fetchAgain query intent (fetchRelevantData env now stamp cache query intent).cache rest

/-- The shape of an `EvidenceBundle`: `source` and `data` are strings in every
`Bundle`, so what is left to ask is that `urls` is there, a list. -/
def Bundle.wellFormed (b : Bundle) : Bool :=
  b.urls.isSome

/-- No method of `env` resolves to an item whose `data` is the empty string. -/
def NonEmptyData (env : Env) : Prop :=
  ∀ (p : Provider) (q : String) (r : EvidenceItem), env p q = .fulfilled (some r) → r.data ≠ ""

/-- The caches an instance can have: empty when constructed, then changed only
by calls of `fetchRelevantData`, here with provider methods satisfying `P`. -/
inductive Reachable (P : Env → Prop) : Cache → Prop
  | new : Reachable P []
  | call {cache : Cache} (env : Env) (now stamp : Int) (query intent : String) :
      Reachable P cache → P env →
      Reachable P (fetchRelevantData env now stamp cache query intent).cache

/-! ## Intent and language detection (`src/functions/index.js`, `src/server.js`) -/

/-- The lower case of one character, as `String.prototype.toLowerCase` gives it,
for every character whose lower case holds an ASCII character: `A`-`Z`, the
Kelvin sign U+212A (lower case `k`) and U+0130 (lower case `i` followed by
U+0307). Every other character is left as it is: its lower case lies outside
ASCII like the character itself, and the patterns of `detectIntent` only tell
ASCII letters, digits and the underscore from all the rest; the phrases
`validatePromptNeutrality` looks for are ASCII as well. -/
def lowerChar (c : Char) : List Char :=
  if c = Char.ofNat 0x212A then [Char.ofNat 0x6B]
  else if c = Char.ofNat 0x0130 then [Char.ofNat 0x69, Char.ofNat 0x0307]
  else [c.toLower]

/-- `query.toLowerCase()`, character by character. -/
def toLowerCase (s : String) : String :=
  String.mk (s.data.flatMap lowerChar)

/-- The class `\w` of a pattern without the flags `u` and `i`: `[A-Za-z0-9_]`. -/
def isWordChar (c : Char) : Bool :=
  c.isAlphanum || c == Char.ofNat 0x5F

/-- Whether there is a character at a position and it is a word character;
`none` stands for the position before the start or after the end. -/
def wordAt (c : Option Char) : Bool :=
  match c with
  | some c => isWordChar c
  | none => false

/-- The assertion `\b` at a position, given the character before and the
character after it: exactly one of the two is a word character. -/
def wordBoundary (before after : Option Char) : Bool :=
  wordAt before != wordAt after

/-- A match of `\b(w1|w2|...)\b` starting at one position: `before` is the
character before the position, `rest` the characters from it on. The
alternatives are tried in order, each followed by the closing `\b`. -/
def matchAt (words : List String) (before : Option Char) (rest : List Char) : Bool :=
  wordBoundary before rest.head? &&
    words.any fun w =>
      w.data.isPrefixOf rest &&
        wordBoundary (before.toList ++ w.data).getLast? (rest.drop w.data.length).head?

/-- The search of `String.prototype.match` for a pattern without the flag `g`:
the positions are tried from left to right, the end of the string included. -/
def searchFrom (words : List String) : Option Char → List Char → Bool
  | before, [] => matchAt words before []
  | before, c :: rest => matchAt words before (c :: rest) || searchFrom words (some c) rest

/-- Truthiness of `s.match(/\b(w1|w2|...)\b/)`: a match array or `null`. -/
def matchWords (words : List String) (s : String) : Bool :=
  searchFrom words none s.data

/-- The alternatives of the pattern of line 16. -/
def lawWords : List String := ["law", "act", "bill", "section", "legal", "court"]

/-- The alternatives of the pattern of line 17. -/
def representativeWords : List String :=
  ["mla", "mp", "representative", "minister", "politician"]

/-- The alternatives of the pattern of line 18. -/
def factCheckWords : List String :=
  ["fact", "true", "false", "verify", "check", "claim", "fake"]

/-- The alternatives of the pattern of line 19. -/
def grievanceWords : List String := ["complaint", "grievance", "problem", "issue"]

/-- `detectIntent(query)` (index.js lines 13-22, the same text in server.js). -/
def detectIntent (query : String) : String :=
  let lower := toLowerCase query
  if matchWords lawWords lower then "law"
  else if matchWords representativeWords lower then "representative"
  else if matchWords factCheckWords lower then "fact-check"
  else if matchWords grievanceWords lower then "grievance"
  else "general"

/-- The object `patterns` of `detectLanguage` as `Object.entries` lists it, in
the order the properties were written: each pattern is one character class,
given by its first and last code. -/
def patterns : List (String × Nat × Nat) :=
  [("hindi", 0x0900, 0x097F), ("tamil", 0x0B80, 0x0BFF),
   ("malayalam", 0x0D00, 0x0D7F), ("telugu", 0x0C00, 0x0C7F)]

/-- `pattern.test(text)` for a pattern that is one class `[lo-hi]`: some
character of the text has its code in the class. -/
def testClass (lo hi : Nat) (text : String) : Bool :=
  text.data.any fun c => decide (lo ≤ c.toNat) && decide (c.toNat ≤ hi)

/-- `detectLanguage(text)` (index.js lines 25-38, the same text in server.js):
the loop returns at the first entry whose pattern tests true. -/
def detectLanguage (text : String) : String :=
  match patterns.find? fun entry => testClass entry.2.1 entry.2.2 text with
  | some entry => entry.1
  | none => "english"

/-- `language || detectLanguage(text)` (index.js line 65, server.js line 70):
`language` is the property of the request body, `none` when the body has none.
Among strings only the empty one is falsy. -/
def detectedLang (language : Option String) (text : String) : String :=
  match language with
  | some l => if l = "" then detectLanguage text else l
  | none => detectLanguage text

/-- That `w` occurs in `s` as a whole word: `s` is `pre ++ w ++ post` where
`pre` does not end and `post` does not start with a word character. -/
def OccursAsWord (w s : String) : Prop :=
  ∃ pre post : List Char,
    s.data = pre ++ w.data ++ post ∧ wordAt pre.getLast? = false ∧ wordAt post.head? = false

/-- That the lower-cased `text` has one of `words` as a whole word. -/
def HasWord (words : List String) (text : String) : Prop :=
  ∃ w ∈ words, OccursAsWord w (toLowerCase text)

/-- That `w` starts and ends with a word character (so it is not empty). -/
def ProperWord (w : String) : Prop :=
  wordAt w.data.head? = true ∧ wordAt w.data.getLast? = true

/-! ## The cache of `RAGSystem` (`src/ragSystem.js`) -/

/-- The value `setCache` stores in the map: `{data, timestamp}`, for whatever
`data` it is given. -/
structure RAGSystem.Entry (α : Type) where
  data : α
  timestamp : Int

/-- The `Map` of a `RAGSystem` instance, as the list of its entries in
insertion order. -/
abbrev RAGSystem.Store (α : Type) := List (String × RAGSystem.Entry α)

/-- `Map.prototype.get` on the map of `RAGSystem`. -/
def RAGSystem.Store.get {α : Type} : RAGSystem.Store α → String → Option (RAGSystem.Entry α)
  | [], _ => none
  | (k, e) :: rest, key => if k = key then some e else RAGSystem.Store.get rest key

/-- `Map.prototype.set` on the map of `RAGSystem`. -/
def RAGSystem.Store.set {α : Type} :
    RAGSystem.Store α → String → RAGSystem.Entry α → RAGSystem.Store α
  | [], key, entry => [(key, entry)]
  | (k, e) :: rest, key, entry =>
    if k = key then (k, entry) :: rest else (k, e) :: RAGSystem.Store.set rest key entry

/-- `this.cacheTimeout = 30 * 60 * 1000` of `RAGSystem`. -/
def RAGSystem.cacheTimeout : Int := 30 * 60 * 1000

/-- `RAGSystem.getCached(key)` (lines 11-17) with `Date.now()` reading `now`:
the value returned (`none` for `null`) and the map afterwards. -/
def RAGSystem.getCached {α : Type} (cache : RAGSystem.Store α) (now : Int) (key : String) :
    Option α × RAGSystem.Store α :=
  match cache.get key with
  | some cached =>
    if now - cached.timestamp < RAGSystem.cacheTimeout then (some cached.data, cache)
    else (none, cache)
  | none => (none, cache)

/-- `RAGSystem.setCache(key, data)` (lines 19-24) with `Date.now()` reading `now`. -/
def RAGSystem.setCache {α : Type} (cache : RAGSystem.Store α) (now : Int) (key : String)
    (data : α) : RAGSystem.Store α :=
  cache.set key { data := data, timestamp := now }

/-- `RAGSystem.clearCache()` (lines 188-190): `this.cache.clear()`. -/
def RAGSystem.clearCache {α : Type} (_cache : RAGSystem.Store α) : RAGSystem.Store α :=
  []

/-- A call of one of the three cache methods. -/
inductive RAGSystem.Op (α : Type)
  | getCached (key : String)
  | setCache (key : String) (data : α)
  | clearCache

/-- Whether a call is a `setCache` of `key` or a `clearCache`. -/
def RAGSystem.Op.writes {α : Type} (key : String) : RAGSystem.Op α → Bool
  | .getCached _ => false
  | .setCache k _ => decide (k = key)
  | .clearCache => true

/-- The map after one call made with clock reading `now`. -/
def RAGSystem.step {α : Type} (cache : RAGSystem.Store α) (now : Int) :
    RAGSystem.Op α → RAGSystem.Store α
  | .getCached key => (RAGSystem.getCached cache now key).2
  | .setCache key data => RAGSystem.setCache cache now key data
  | .clearCache => RAGSystem.clearCache cache

/-- The map after a sequence of calls, each with its clock reading. -/
def RAGSystem.run {α : Type} (cache : RAGSystem.Store α) :
    List (Int × RAGSystem.Op α) → RAGSystem.Store α
  | [] => cache
  | (now, op) :: rest => RAGSystem.run (RAGSystem.step cache now op) rest

/-! ## The aggregation of `RAGSystem` (`src/ragSystem.js`) -/

/-- The object `RAGSystem.fetchRelevantData` returns: `{sources, data, urls}`. -/
structure RAGSystem.Bundle where
  sources : List String
  data : String
  urls : List String
deriving DecidableEq, Repr

/-- `RAGSystem.fetchPRSData(query)` (lines 27-46) on the map `cache`: how its
promise settles and the map afterwards. `now` is the clock reading of its
`getCached`, `stamp` the one of its `setCache`. A cached item is an object, so
`if (cached)` holds whenever `getCached` did not return `null`. -/
def RAGSystem.fetchPRSData (cache : RAGSystem.Store EvidenceItem) (now stamp : Int)
    (query : String) : Settled × RAGSystem.Store EvidenceItem :=
  match (RAGSystem.getCached cache now ("prs_" ++ query)).1 with
  | some cached => (.fulfilled (some cached), cache)
  | none =>
    let data : EvidenceItem :=
      { source := "PRS Legislative Research"
        data := "Legislative analysis and bill information for: " ++ query
        url := "https://prsindia.org" }
    (.fulfilled (some data), RAGSystem.setCache cache stamp ("prs_" ++ query) data)

/-- `RAGSystem.fetchMyNetaData(query)` (lines 49-68). -/
def RAGSystem.fetchMyNetaData (cache : RAGSystem.Store EvidenceItem) (now stamp : Int)
    (query : String) : Settled × RAGSystem.Store EvidenceItem :=
  match (RAGSystem.getCached cache now ("myneta_" ++ query)).1 with
  | some cached => (.fulfilled (some cached), cache)
  | none =>
    let data : EvidenceItem :=
      { source := "MyNeta (ADR)"
        data := "Representative profiles, criminal cases, and asset information for: " ++ query
        url := "https://myneta.info" }
    (.fulfilled (some data), RAGSystem.setCache cache stamp ("myneta_" ++ query) data)

/-- `RAGSystem.fetchIndiaCodeData(query)` (lines 71-90). -/
def RAGSystem.fetchIndiaCodeData (cache : RAGSystem.Store EvidenceItem) (now stamp : Int)
    (query : String) : Settled × RAGSystem.Store EvidenceItem :=
  match (RAGSystem.getCached cache now ("indiacode_" ++ query)).1 with
  | some cached => (.fulfilled (some cached), cache)
  | none =>
    let data : EvidenceItem :=
      { source := "India Code"
        data := "Legal acts, sections, and amendments related to: " ++ query
        url := "https://indiacode.nic.in" }
    (.fulfilled (some data), RAGSystem.setCache cache stamp ("indiacode_" ++ query) data)

/-- `RAGSystem.fetchPIBFactCheck(claim)` (lines 93-112). -/
def RAGSystem.fetchPIBFactCheck (cache : RAGSystem.Store EvidenceItem) (now stamp : Int)
    (claim : String) : Settled × RAGSystem.Store EvidenceItem :=
  match (RAGSystem.getCached cache now ("pib_" ++ claim)).1 with
  | some cached => (.fulfilled (some cached), cache)
  | none =>
    let data : EvidenceItem :=
      { source := "PIB Fact Check"
        data := "Official government fact-check and verification for: " ++ claim
        url := "https://pib.gov.in" }
    (.fulfilled (some data), RAGSystem.setCache cache stamp ("pib_" ++ claim) data)

/-- `RAGSystem.fetchGovernmentData(query)` (lines 115-134). -/
def RAGSystem.fetchGovernmentData (cache : RAGSystem.Store EvidenceItem) (now stamp : Int)
    (query : String) : Settled × RAGSystem.Store EvidenceItem :=
  match (RAGSystem.getCached cache now ("datagov_" ++ query)).1 with
  | some cached => (.fulfilled (some cached), cache)
  | none =>
    let data : EvidenceItem :=
      { source := "Data.gov.in"
        data := "Government schemes, statistics, and public data for: " ++ query
        url := "https://data.gov.in" }
    (.fulfilled (some data), RAGSystem.setCache cache stamp ("datagov_" ++ query) data)

/-- The `switch (intent)` of `RAGSystem.fetchRelevantData` (lines 141-165),
started with `results = []`: `results` when it completes, or the exception
that left it, and the map afterwards. `times p` holds the two clock readings
of method `p` in this call. The two calls of the `Promise.all` array run one
after the other, the second on the map the first has left. -/
def RAGSystem.switchIntent (times : Provider → Int × Int)
    (cache : RAGSystem.Store EvidenceItem) (query intent : String) :
    Except Unit (List EvidenceItem) × RAGSystem.Store EvidenceItem :=
  if intent = "law" then
    let law := RAGSystem.fetchIndiaCodeData cache (times .fetchIndiaCodeData).1
      (times .fetchIndiaCodeData).2 query
    let prs := RAGSystem.fetchPRSData law.2 (times .fetchPRSData).1 (times .fetchPRSData).2 query
    (match awaitAll law.1 prs.1 with
      | .ok (lawData, prsData) => .ok (pushIf (pushIf [] lawData) prsData)
      | .error e => .error e,
     prs.2)
  else if intent = "representative" then
    let rep := RAGSystem.fetchMyNetaData cache (times .fetchMyNetaData).1
      (times .fetchMyNetaData).2 query
    (match await rep.1 with
      | .ok repData => .ok (pushIf [] repData)
      | .error e => .error e,
     rep.2)
  else if intent = "fact-check" then
    let fact := RAGSystem.fetchPIBFactCheck cache (times .fetchPIBFactCheck).1
      (times .fetchPIBFactCheck).2 query
    (match await fact.1 with
      | .ok factData => .ok (pushIf [] factData)
      | .error e => .error e,
     fact.2)
  else
    let general := RAGSystem.fetchGovernmentData cache (times .fetchGovernmentData).1
      (times .fetchGovernmentData).2 query
    (match await general.1 with
      | .ok generalData => .ok (pushIf [] generalData)
      | .error e => .error e,
     general.2)

/-- `RAGSystem.fetchRelevantData(query, intent)` (lines 137-185): the value its
promise is fulfilled with and the map afterwards. The `catch` only logs. -/
def RAGSystem.fetchRelevantData (times : Provider → Int × Int)
    (cache : RAGSystem.Store EvidenceItem) (query intent : String) :
    RAGSystem.Bundle × RAGSystem.Store EvidenceItem :=
  let run := RAGSystem.switchIntent times cache query intent
  let results : List EvidenceItem :=
    match run.1 with
    | .ok rs => rs
    | .error _ => []
  if results.length = 0 then
    ({ sources := []
       data := "Verified public information is currently unavailable for this topic."
       urls := [] },
     run.2)
  else
    ({ sources := results.map fun r => r.source
       data := join "\n\n" (results.map fun r => r.data)
       urls := (results.map fun r => r.url).filter fun u => u ≠ "" },
     run.2)

/-! ## Prompt templates and their neutrality check (`src/functions/promptTemplates.js`) -/

/-- The template literal `CIVIC_PROMPTS.QA_PROMPT` (lines 7-32), line by line. -/
def CIVIC_PROMPTS.QA_PROMPT : String :=
  "\n".intercalate
    ["You are a neutral civic information assistant for Indian citizens.",
     "",
     "CONTEXT DATA:",
     "\x7bcontext\x7d",
     "",
     "USER QUESTION: \x7bquestion\x7d",
     "RESPONSE LANGUAGE: \x7blanguage\x7d",
     "",
     "STRICT NEUTRALITY RULES:",
     "- Stay completely neutral and unbiased",
     "- Never recommend who to vote for or support any political party",
     "- Never express opinions about politicians or parties",
     "- Use simple, citizen-friendly language",
     "- Explain complex terms in layman\x27s language",
     "- Always cite your sources from the context",
     "- If you don\x27t have enough verified information, clearly state so",
     "- Focus on facts, not opinions",
     "- Avoid any political persuasion or bias",
     "",
     "RESPONSE FORMAT:",
     "- Start with a direct answer",
     "- Provide relevant details from verified sources",
     "- Cite sources used",
     "- End with practical next steps if applicable",
     "",
     "Provide a helpful, educational response in \x7blanguage\x7d:"]

/-- The template literal `CIVIC_PROMPTS.POLICY_SUMMARY_PROMPT` (lines 35-58), line by line. -/
def CIVIC_PROMPTS.POLICY_SUMMARY_PROMPT : String :=
  "\n".intercalate
    ["You are summarizing an Indian policy document or political manifesto for citizen education.",
     "",
     "POLICY TEXT:",
     "\x7btext\x7d",
     "",
     "RESPONSE LANGUAGE: \x7blanguage\x7d",
     "",
     "NEUTRALITY RULES:",
     "- Stay completely neutral - no endorsement or criticism",
     "- Use bullet points for key information",
     "- Explain in simple, citizen-friendly language",
     "- Translate technical terms to \x7blanguage\x7d",
     "- Focus only on factual content from the document",
     "- If it\x27s a manifesto, present promises objectively without endorsement",
     "- Avoid any bias, opinion, or political leaning",
     "",
     "SUMMARY FORMAT:",
     "• Key Points: [Main policy points]",
     "• Target Beneficiaries: [Who this affects]",
     "• Implementation: [How it will be done]",
     "• Timeline: [When it will happen]",
     "• Budget/Resources: [Financial aspects if mentioned]",
     "",
     "Provide a neutral summary in \x7blanguage\x7d:"]

/-- The template literal `CIVIC_PROMPTS.FACT_CHECK_PROMPT` (lines 61-85), line by line. -/
def CIVIC_PROMPTS.FACT_CHECK_PROMPT : String :=
  "\n".intercalate
    ["You are fact-checking a claim using verified Indian government sources.",
     "",
     "CLAIM TO CHECK: \x7bclaim\x7d",
     "AVAILABLE VERIFIED DATA: \x7bcontext\x7d",
     "RESPONSE LANGUAGE: \x7blanguage\x7d",
     "",
     "VERIFICATION RULES:",
     "- Only use verified Indian government sources (PIB, ECI, official websites)",
     "- Be completely neutral and factual",
     "- If information is insufficient, clearly state \"Cannot verify with available data\"",
     "- Explain your reasoning step by step",
     "- Cite specific sources used",
     "- Avoid speculation or assumptions",
     "- Use clear verification categories: TRUE, FALSE, PARTIALLY TRUE, UNVERIFIABLE",
     "",
     "RESPONSE FORMAT:",
     "VERIFICATION STATUS: [TRUE/FALSE/PARTIALLY TRUE/UNVERIFIABLE]",
     "",
     "EXPLANATION:",
     "[Step-by-step reasoning based on verified sources]",
     "",
     "SOURCES USED:",
     "[List specific sources that support the verification]",
     "",
     "Provide fact-check analysis in \x7blanguage\x7d:"]

/-- The template literal `CIVIC_PROMPTS.GRIEVANCE_PROMPT` (lines 88-112), line by line. -/
def CIVIC_PROMPTS.GRIEVANCE_PROMPT : String :=
  "\n".intercalate
    ["You are drafting a formal grievance letter for an Indian citizen to a government department.",
     "",
     "CITIZEN\x27S ISSUE: \x7bissue\x7d",
     "TARGET DEPARTMENT: \x7bdepartment\x7d",
     "LANGUAGE: \x7blanguage\x7d",
     "",
     "FORMATTING RULES:",
     "- Use proper Indian government letter format",
     "- Be respectful and professional throughout",
     "- Include proper salutation and closing",
     "- Use formal language appropriate for \x7blanguage\x7d",
     "- Follow standard administrative conventions",
     "- Include placeholders for citizen\x27s personal details",
     "- Maintain a constructive, solution-seeking tone",
     "",
     "LETTER STRUCTURE:",
     "1. Date and addressing",
     "2. Subject line",
     "3. Respectful salutation",
     "4. Clear problem statement",
     "5. Supporting details",
     "6. Specific request for action",
     "7. Professional closing",
     "",
     "Draft a formal grievance letter in \x7blanguage\x7d:"]

/-- The template literal `CIVIC_PROMPTS.REPRESENTATIVE_INFO_PROMPT` (lines 115-138), line by line. -/
def CIVIC_PROMPTS.REPRESENTATIVE_INFO_PROMPT : String :=
  "\n".intercalate
    ["You are providing factual information about Indian political representatives.",
     "",
     "QUERY: \x7bquery\x7d",
     "AVAILABLE DATA: \x7bcontext\x7d",
     "RESPONSE LANGUAGE: \x7blanguage\x7d",
     "",
     "INFORMATION RULES:",
     "- Provide factual information only - no opinions or judgments",
     "- Include constituency, party affiliation, contact details if available",
     "- Mention key responsibilities and roles",
     "- Stay neutral about performance, achievements, or controversies",
     "- If data is incomplete, clearly mention what information is missing",
     "- Focus on helping citizens contact and understand their representatives",
     "- Avoid any political bias or endorsement",
     "",
     "INFORMATION FORMAT:",
     "• Name and Position: [Official title and name]",
     "• Constituency: [Area represented]",
     "• Party Affiliation: [Political party]",
     "• Contact Information: [Phone, email, office address if available]",
     "• Key Responsibilities: [What they do for citizens]",
     "• How to Contact: [Process for reaching them]",
     "",
     "Provide representative information in \x7blanguage\x7d:"]

/-- The template literal `CIVIC_PROMPTS.LEGAL_EXPLANATION_PROMPT` (lines 141-164), line by line. -/
def CIVIC_PROMPTS.LEGAL_EXPLANATION_PROMPT : String :=
  "\n".intercalate
    ["You are explaining Indian laws and legal procedures to citizens in simple terms.",
     "",
     "LEGAL QUERY: \x7bquery\x7d",
     "LEGAL CONTEXT: \x7bcontext\x7d",
     "RESPONSE LANGUAGE: \x7blanguage\x7d",
     "",
     "EXPLANATION RULES:",
     "- Use simple, non-legal language that common citizens can understand",
     "- Break down complex legal concepts into easy steps",
     "- Explain citizen rights and procedures clearly",
     "- Provide practical guidance where appropriate",
     "- Always mention this is general information, not legal advice",
     "- Suggest consulting legal professionals for specific cases",
     "- Include relevant sections or acts when helpful",
     "- Focus on citizen empowerment through knowledge",
     "",
     "EXPLANATION FORMAT:",
     "• Simple Explanation: [What this law means in everyday terms]",
     "• Your Rights: [What citizens can do]",
     "• Process: [Step-by-step procedure if applicable]",
     "• Important Notes: [Key things to remember]",
     "• When to Seek Help: [When to consult a lawyer]",
     "",
     "Explain in citizen-friendly \x7blanguage\x7d:"]

/-- The template literal `CIVIC_PROMPTS.SCHEME_INFO_PROMPT` (lines 167-191), line by line. -/
def CIVIC_PROMPTS.SCHEME_INFO_PROMPT : String :=
  "\n".intercalate
    ["You are explaining Indian government schemes and welfare programs to citizens.",
     "",
     "SCHEME QUERY: \x7bquery\x7d",
     "AVAILABLE DATA: \x7bcontext\x7d",
     "RESPONSE LANGUAGE: \x7blanguage\x7d",
     "",
     "INFORMATION RULES:",
     "- Provide factual, up-to-date information about schemes",
     "- Explain eligibility criteria clearly",
     "- Detail application process step-by-step",
     "- Mention required documents",
     "- Include contact information for applications",
     "- Stay neutral - no political credit or blame",
     "- Focus on helping citizens access benefits",
     "",
     "SCHEME FORMAT:",
     "• Scheme Name: [Official name]",
     "• Purpose: [What it aims to do]",
     "• Eligibility: [Who can apply]",
     "• Benefits: [What you get]",
     "• How to Apply: [Step-by-step process]",
     "• Required Documents: [What you need]",
     "• Contact Information: [Where to apply]",
     "",
     "Provide scheme information in \x7blanguage\x7d:"]

/-- The template literal `CIVIC_PROMPTS.ELECTION_INFO_PROMPT` (lines 194-217), line by line. -/
def CIVIC_PROMPTS.ELECTION_INFO_PROMPT : String :=
  "\n".intercalate
    ["You are providing factual information about Indian elections and electoral processes.",
     "",
     "ELECTION QUERY: \x7bquery\x7d",
     "AVAILABLE DATA: \x7bcontext\x7d",
     "RESPONSE LANGUAGE: \x7blanguage\x7d",
     "",
     "ELECTION RULES:",
     "- Provide factual information about electoral processes only",
     "- Explain voting procedures and citizen rights",
     "- Stay completely neutral about candidates or parties",
     "- Focus on civic education and voter awareness",
     "- Include practical information about voting",
     "- Mention Election Commission guidelines",
     "- Avoid any political bias or recommendations",
     "",
     "INFORMATION FORMAT:",
     "• Election Details: [Type, date, constituency]",
     "• Voting Process: [How to vote]",
     "• Voter Requirements: [What you need to vote]",
     "• Important Dates: [Registration, voting dates]",
     "• Candidate Information: [Factual details only]",
     "• Voter Rights: [What you\x27re entitled to]",
     "",
     "Provide election information in \x7blanguage\x7d:"]

/-- The object `CIVIC_PROMPTS` (lines 4-219): its eight templates under their
property names, in the order written. -/
def CIVIC_PROMPTS : List (String × String) :=
  [("QA_PROMPT", CIVIC_PROMPTS.QA_PROMPT),
   ("POLICY_SUMMARY_PROMPT", CIVIC_PROMPTS.POLICY_SUMMARY_PROMPT),
   ("FACT_CHECK_PROMPT", CIVIC_PROMPTS.FACT_CHECK_PROMPT),
   ("GRIEVANCE_PROMPT", CIVIC_PROMPTS.GRIEVANCE_PROMPT),
   ("REPRESENTATIVE_INFO_PROMPT", CIVIC_PROMPTS.REPRESENTATIVE_INFO_PROMPT),
   ("LEGAL_EXPLANATION_PROMPT", CIVIC_PROMPTS.LEGAL_EXPLANATION_PROMPT),
   ("SCHEME_INFO_PROMPT", CIVIC_PROMPTS.SCHEME_INFO_PROMPT),
   ("ELECTION_INFO_PROMPT", CIVIC_PROMPTS.ELECTION_INFO_PROMPT)]

/-- The array `biasWords` of `validatePromptNeutrality` (lines 236-240). -/
def biasWords : List String :=
  ["recommend voting", "support party", "best candidate", "worst politician",
   "you should vote", "don\x27t vote for", "good leader", "bad leader",
   "corrupt", "honest politician", "vote for", "support this party"]

/-- The search of `String.prototype.includes`: `w` stands at the start of `s` or
somewhere further on. -/
def includesFrom (w : List Char) : List Char → Bool
  | [] => w.isPrefixOf []
  | c :: rest => w.isPrefixOf (c :: rest) || includesFrom w rest

/-- `s.includes(w)`. -/
def includes (s w : String) : Bool :=
  includesFrom w.data s.data

/-- `validatePromptNeutrality(prompt)` (lines 235-252): the loop returns `false`
at the first bias phrase the lower-cased prompt includes, and `true` after it.
The warning it logs is left out. -/
def validatePromptNeutrality (prompt : String) : Bool :=
  let lowerPrompt := toLowerCase prompt
  match biasWords.find? fun biasWord => includes lowerPrompt biasWord with
  | some _ => false
  | none => true

/-- That `w` is a substring of `s`. -/
def Contains (s w : String) : Prop :=
  ∃ pre post : List Char, s.data = pre ++ w.data ++ post

/-- The intents the handlers pass to `fetchRelevantData`: the five values
`detectIntent` returns (index.js lines 16-21); the literal of the fact-check
handler (line 134) is one of them. -/
def intentTags : List String := ["law", "representative", "fact-check", "grievance", "general"]

/-! ## Lemmas on the cache and on one call -/

theorem Cache.get_set_self (c : Cache) (k : String) (e : CacheEntry) :
    (c.set k e).get k = some e := by
  induction c with
  | nil => simp [Cache.set, Cache.get]
  | cons h t ih =>
    obtain ⟨k', e'⟩ := h
    by_cases hk : k' = k <;> simp [Cache.set, Cache.get, hk, ih]

theorem liveEntry_nil (key : String) (now : Int) : liveEntry [] key now = none := rfl

theorem liveEntry_of_get {cache : Cache} {key : String} {e : CacheEntry} (now : Int)
    (hget : cache.get key = some e) :
    liveEntry cache key now = if now - e.timestamp < cacheTimeout then some e.data else none := by
  simp [liveEntry, hget]

theorem fetch_hit (env : Env) (now stamp : Int) (cache : Cache) (query intent : String)
    {d : Bundle} (h : liveEntry cache (cacheKey intent query) now = some d) :
    fetchRelevantData env now stamp cache query intent
      = { value := d, cache := cache, invoked := [] } := by
  simp [fetchRelevantData, h]

theorem fetch_miss_empty (env : Env) (now stamp : Int) (cache : Cache) (query intent : String)
    (h : liveEntry cache (cacheKey intent query) now = none)
    (hr : tryResults env query intent = []) :
    fetchRelevantData env now stamp cache query intent
      = { value := fallback
          cache := cache.set (cacheKey intent query) { data := fallback, timestamp := stamp }
          invoked := (switchIntent env query intent).1 } := by
  simp [fetchRelevantData, h, hr]

theorem fetch_miss_items (env : Env) (now stamp : Int) (cache : Cache) (query intent : String)
    (h : liveEntry cache (cacheKey intent query) now = none)
    (hr : tryResults env query intent ≠ []) :
    fetchRelevantData env now stamp cache query intent
      = { value := combine (tryResults env query intent)
          cache := cache.set (cacheKey intent query)
            { data := combine (tryResults env query intent), timestamp := stamp }
          invoked := (switchIntent env query intent).1 } := by
  simp [fetchRelevantData, h, hr]

theorem switchIntent_fst (env : Env) (query intent : String) :
    (switchIntent env query intent).1 =
      if intent = "law" then [Provider.fetchIndiaCodeData, Provider.fetchPRSData]
      else if intent = "representative" then [Provider.fetchMyNetaData, Provider.fetchECIData]
      else if intent = "fact-check" then [Provider.fetchPIBFactCheck]
      else [Provider.fetchGovernmentData] := by
  unfold switchIntent
  split_ifs <;> rfl

theorem switchIntent_fst_ne_nil (env : Env) (query intent : String) :
    (switchIntent env query intent).1 ≠ [] := by
  rw [switchIntent_fst]
  split_ifs <;> simp

/-- A miss: the value, the stored entry and the calls, whatever `results` is. -/
theorem fetch_miss (env : Env) (now stamp : Int) (cache : Cache) (query intent : String)
    (h : liveEntry cache (cacheKey intent query) now = none) :
    (fetchRelevantData env now stamp cache query intent).cache
        = cache.set (cacheKey intent query)
            { data := (fetchRelevantData env now stamp cache query intent).value
              timestamp := stamp }
      ∧ (fetchRelevantData env now stamp cache query intent).invoked
        = (switchIntent env query intent).1
      ∧ (fetchRelevantData env now stamp cache query intent).value
        = (fetchRelevantData env now stamp [] query intent).value := by
  by_cases hr : tryResults env query intent = []
  · simp [fetch_miss_empty env now stamp cache query intent h hr,
      fetch_miss_empty env now stamp [] query intent (liveEntry_nil _ _) hr]
  · simp [fetch_miss_items env now stamp cache query intent h hr,
      fetch_miss_items env now stamp [] query intent (liveEntry_nil _ _) hr]

theorem tryResults_allNull (query intent : String) : tryResults allNull query intent = [] := by
  unfold tryResults switchIntent
  split_ifs <;> rfl

/-- With every called method fulfilled, `results` holds the items among the
fulfilment values, in call order. -/
theorem tryResults_of_fulfilled (env : Env) (query intent : String)
    (outcomes : List (Option EvidenceItem))
    (hout : (switchIntent env query intent).1.map (fun p => env p query)
      = outcomes.map Settled.fulfilled) :
    tryResults env query intent = outcomes.filterMap id := by
  unfold tryResults
  unfold switchIntent at hout ⊢
  split_ifs at hout ⊢
  all_goals
    rcases outcomes with _ | ⟨o1, _ | ⟨o2, _ | ⟨o3, t⟩⟩⟩ <;> simp at hout
  all_goals first
    | (obtain ⟨h1, h2⟩ := hout
       rw [h1, h2]
       cases o1 <;> cases o2 <;> rfl)
    | (rw [hout]
       cases o1 <;> rfl)

/-- A rejected promise among the calls of the `switch` leaves `results` empty. -/
theorem tryResults_of_rejected (env : Env) (query intent : String) (p : Provider)
    (hp : p ∈ (switchIntent env query intent).1) (hrej : env p query = .rejected) :
    tryResults env query intent = [] := by
  unfold tryResults
  unfold switchIntent at hp ⊢
  split_ifs at hp ⊢
  all_goals
    simp only [List.mem_cons, List.mem_singleton, List.not_mem_nil, or_false] at hp
  · rcases hp with rfl | rfl
    · simp [hrej, awaitAll]
    · cases h1 : env Provider.fetchIndiaCodeData query <;> simp [hrej, awaitAll]
  · rcases hp with rfl | rfl
    · simp [hrej, awaitAll]
    · cases h1 : env Provider.fetchMyNetaData query <;> simp [hrej, awaitAll]
  · subst hp
    simp [hrej, await]
  · subst hp
    simp [hrej, await]

/-- When no called method resolves to an item, `results` is empty. -/
theorem tryResults_of_no_item (env : Env) (query intent : String)
    (hnone : ∀ p ∈ (switchIntent env query intent).1, ∀ item : EvidenceItem,
      env p query ≠ .fulfilled (some item)) :
    tryResults env query intent = [] := by
  unfold tryResults
  unfold switchIntent at hnone ⊢
  split_ifs at hnone ⊢
  · have h1 := hnone Provider.fetchIndiaCodeData (by simp)
    have h2 := hnone Provider.fetchPRSData (by simp)
    cases e1 : env Provider.fetchIndiaCodeData query with
    | rejected => simp [awaitAll]
    | fulfilled a =>
      cases e2 : env Provider.fetchPRSData query with
      | rejected => simp [awaitAll]
      | fulfilled b =>
        cases a with
        | some x => exact absurd e1 (h1 x)
        | none =>
          cases b with
          | some y => exact absurd e2 (h2 y)
          | none => rfl
  · have h1 := hnone Provider.fetchMyNetaData (by simp)
    have h2 := hnone Provider.fetchECIData (by simp)
    cases e1 : env Provider.fetchMyNetaData query with
    | rejected => simp [awaitAll]
    | fulfilled a =>
      cases e2 : env Provider.fetchECIData query with
      | rejected => simp [awaitAll]
      | fulfilled b =>
        cases a with
        | some x => exact absurd e1 (h1 x)
        | none =>
          cases b with
          | some y => exact absurd e2 (h2 y)
          | none => rfl
  · have h1 := hnone Provider.fetchPIBFactCheck (by simp)
    cases e1 : env Provider.fetchPIBFactCheck query with
    | rejected => simp [await]
    | fulfilled a =>
      cases a with
      | some x => exact absurd e1 (h1 x)
      | none => rfl
  · have h1 := hnone Provider.fetchGovernmentData (by simp)
    cases e1 : env Provider.fetchGovernmentData query with
    | rejected => simp [await]
    | fulfilled a =>
      cases a with
      | some x => exact absurd e1 (h1 x)
      | none => rfl

/-- Calls that find a live entry under their key all return it and change nothing. -/
theorem fetchAgain_live (query intent : String) (cache : Cache) (e : CacheEntry)
    (hget : cache.get (cacheKey intent query) = some e)
    (later : List (Env × Int × Int))
    (hlater : ∀ c ∈ later, c.2.1 - e.timestamp < cacheTimeout) :
    ∀ r ∈ fetchAgain query intent cache later,
      r = { value := e.data, cache := cache, invoked := [] } := by
  induction later with
  | nil => intro r hr; simp [fetchAgain] at hr
  | cons c rest ih =>
    obtain ⟨env, now, stamp⟩ := c
    have hnow : now - e.timestamp < cacheTimeout := hlater (env, now, stamp) (by simp)
    have hhit := fetch_hit env now stamp cache query intent (d := e.data)
      (by rw [liveEntry_of_get now hget, if_pos hnow])
    intro r hr
    simp only [fetchAgain, hhit, List.mem_cons] at hr
    rcases hr with rfl | hr
    · rfl
    · exact ih (fun c hc => hlater c (List.mem_cons_of_mem _ hc)) r hr

theorem fetchAgain_length (query intent : String) (cache : Cache)
    (later : List (Env × Int × Int)) :
    (fetchAgain query intent cache later).length = later.length := by
  induction later generalizing cache with
  | nil => rfl
  | cons c rest ih =>
    obtain ⟨env, now, stamp⟩ := c
    simp [fetchAgain, ih]

theorem append_eq_empty_left {a b : String} (h : a ++ b = "") : a = "" := by
  have hl : (a ++ b).length = 0 := by rw [h]; rfl
  rw [String.length_append] at hl
  have ha : a.length = 0 := by omega
  have hd : a.data = [] := List.length_eq_zero.mp ha
  exact String.ext hd

/-- Joining a non-empty array whose first string is not empty gives a
non-empty string. -/
theorem join_ne_empty (sep a : String) (rest : List String) (ha : a ≠ "") :
    join sep (a :: rest) ≠ "" := by
  cases rest with
  | nil => simpa [join] using ha
  | cons b t =>
    intro h
    simp only [join] at h
    rw [String.append_assoc] at h
    exact ha (append_eq_empty_left h)

/-- Combining a non-empty `results` whose items all have non-empty `data`
gives non-empty `data`. -/
theorem combine_data_ne_empty (results : List EvidenceItem) (hne : results ≠ [])
    (hdata : ∀ r ∈ results, r.data ≠ "") : (combine results).data ≠ "" := by
  cases results with
  | nil => exact absurd rfl hne
  | cons r t =>
    simp only [combine, List.map_cons]
    exact join_ne_empty _ _ _ (hdata r (by simp))

/-- Every item in `results` is the fulfilment value of some method. -/
theorem tryResults_mem (env : Env) (query intent : String) (r : EvidenceItem)
    (hr : r ∈ tryResults env query intent) :
    ∃ p : Provider, env p query = .fulfilled (some r) := by
  unfold tryResults switchIntent at hr
  split_ifs at hr
  · cases e1 : env Provider.fetchIndiaCodeData query with
    | rejected => simp [e1, awaitAll] at hr
    | fulfilled a =>
      cases e2 : env Provider.fetchPRSData query with
      | rejected => simp [e1, e2, awaitAll] at hr
      | fulfilled b =>
        cases a <;> cases b <;> simp [e1, e2, awaitAll, pushIf] at hr
        · exact ⟨_, hr ▸ e2⟩
        · exact ⟨_, hr ▸ e1⟩
        · rcases hr with rfl | rfl
          · exact ⟨_, e1⟩
          · exact ⟨_, e2⟩
  · cases e1 : env Provider.fetchMyNetaData query with
    | rejected => simp [e1, awaitAll] at hr
    | fulfilled a =>
      cases e2 : env Provider.fetchECIData query with
      | rejected => simp [e1, e2, awaitAll] at hr
      | fulfilled b =>
        cases a <;> cases b <;> simp [e1, e2, awaitAll, pushIf] at hr
        · exact ⟨_, hr ▸ e2⟩
        · exact ⟨_, hr ▸ e1⟩
        · rcases hr with rfl | rfl
          · exact ⟨_, e1⟩
          · exact ⟨_, e2⟩
  · cases e1 : env Provider.fetchPIBFactCheck query with
    | rejected => simp [e1, await] at hr
    | fulfilled a =>
      cases a <;> simp [e1, await, pushIf] at hr
      exact ⟨_, hr ▸ e1⟩
  · cases e1 : env Provider.fetchGovernmentData query with
    | rejected => simp [e1, await] at hr
    | fulfilled a =>
      cases a <;> simp [e1, await, pushIf] at hr
      exact ⟨_, hr ▸ e1⟩

theorem Cache.get_mem {c : Cache} {k : String} {e : CacheEntry} (h : c.get k = some e) :
    (k, e) ∈ c := by
  induction c with
  | nil => simp [Cache.get] at h
  | cons hd t ih =>
    obtain ⟨k', e'⟩ := hd
    by_cases hk : k' = k
    · simp [Cache.get, hk] at h
      simp [hk, h]
    · simp [Cache.get, hk] at h
      exact List.mem_cons_of_mem _ (ih h)

theorem Cache.mem_set {c : Cache} {k : String} {e : CacheEntry} {x : String × CacheEntry}
    (h : x ∈ c.set k e) : x ∈ c ∨ x = (k, e) := by
  induction c with
  | nil => simp [Cache.set] at h; exact Or.inr h
  | cons hd t ih =>
    obtain ⟨k', e'⟩ := hd
    by_cases hk : k' = k
    · simp [Cache.set, hk] at h
      rcases h with h | h
      · exact Or.inr h
      · exact Or.inl (List.mem_cons_of_mem _ h)
    · simp [Cache.set, hk] at h
      rcases h with h | h
      · exact Or.inl (by simp [h])
      · rcases ih h with h' | h'
        · exact Or.inl (List.mem_cons_of_mem _ h')
        · exact Or.inr h'

/-- The value of a call has non-empty `data` when the stored bundles and the
items of the providers have. -/
theorem fetch_data_ne_empty (env : Env) (now stamp : Int) (cache : Cache)
    (query intent : String) (henv : NonEmptyData env)
    (hcache : ∀ x ∈ cache, x.2.data.data ≠ "") :
    (fetchRelevantData env now stamp cache query intent).value.data ≠ "" := by
  cases hl : liveEntry cache (cacheKey intent query) now with
  | some d =>
    rw [fetch_hit env now stamp cache query intent hl]
    unfold liveEntry at hl
    cases hg : cache.get (cacheKey intent query) with
    | none => simp [hg] at hl
    | some e =>
      simp only [hg] at hl
      split_ifs at hl
      rw [← Option.some.inj hl]
      exact hcache _ (Cache.get_mem hg)
  | none =>
    by_cases hr : tryResults env query intent = []
    · rw [fetch_miss_empty env now stamp cache query intent hl hr]
      show fallback.data ≠ ""
      decide
    · rw [fetch_miss_items env now stamp cache query intent hl hr]
      refine combine_data_ne_empty _ hr ?_
      intro r hmem
      obtain ⟨p, hp⟩ := tryResults_mem env query intent r hmem
      exact henv p query r hp

/-- Reachable caches hold only bundles with non-empty `data`, as long as no
provider resolved to an item with empty `data`. -/
theorem reachable_data_ne_empty {cache : Cache} (h : Reachable NonEmptyData cache) :
    ∀ x ∈ cache, x.2.data.data ≠ "" := by
  induction h with
  | new => intro x hx; simp at hx
  | @call c env now stamp query intent _ henv ih =>
    intro x hx
    cases hl : liveEntry c (cacheKey intent query) now with
    | some d =>
      rw [fetch_hit env now stamp c query intent hl] at hx
      exact ih x hx
    | none =>
      rw [(fetch_miss env now stamp c query intent hl).1] at hx
      rcases Cache.mem_set hx with h' | h'
      · exact ih x h'
      · rw [h']
        exact fetch_data_ne_empty env now stamp c query intent henv ih

theorem nonEmptyData_builtin : NonEmptyData builtin := by
  intro p q r h
  cases p <;>
    simp only [builtin, fetchPRSData, fetchMyNetaData, fetchIndiaCodeData, fetchPIBFactCheck,
      fetchGovernmentData, fetchECIData, Settled.fulfilled.injEq, Option.some.injEq] at h <;>
    rw [← h] <;>
    exact fun hempty => absurd (append_eq_empty_left hempty) (by decide)

/-! ## Lemmas on the whole-word search -/

theorem properWord_ne_nil {w : String} (h : ProperWord w) : w.data ≠ [] := by
  intro hnil
  have h1 := h.1
  rw [hnil] at h1
  simp [wordAt] at h1

/-- With keywords that start and end with a word character, a match at a
position is a keyword standing there, with no word character before the
position and none after the keyword. -/
theorem matchAt_iff (words : List String) (hw : ∀ w ∈ words, ProperWord w)
    (before : Option Char) (rest : List Char) :
    matchAt words before rest = true ↔
      ∃ w ∈ words, ∃ post : List Char,
        rest = w.data ++ post ∧ wordAt before = false ∧ wordAt post.head? = false := by
  unfold matchAt
  simp only [Bool.and_eq_true, List.any_eq_true]
  constructor
  · rintro ⟨hb, w, hwm, hpre, hb2⟩
    have hp := hw w hwm
    have hne := properWord_ne_nil hp
    rw [List.isPrefixOf_iff_prefix] at hpre
    obtain ⟨post, rfl⟩ := hpre
    refine ⟨w, hwm, post, rfl, ?_, ?_⟩
    · rw [List.head?_append_of_ne_nil _ hne] at hb
      simpa [wordBoundary, hp.1] using hb
    · rw [List.drop_left, List.getLast?_append_of_ne_nil _ hne] at hb2
      simpa [wordBoundary, hp.2] using hb2
  · rintro ⟨w, hwm, post, rfl, h1, h2⟩
    have hp := hw w hwm
    have hne := properWord_ne_nil hp
    refine ⟨?_, w, hwm, ?_, ?_⟩
    · rw [List.head?_append_of_ne_nil _ hne]
      simp [wordBoundary, hp.1, h1]
    · rw [List.isPrefixOf_iff_prefix]
      exact List.prefix_append _ _
    · rw [List.drop_left, List.getLast?_append_of_ne_nil _ hne]
      simp [wordBoundary, hp.2, h2]

/-- The search from a position finds a match exactly when a keyword stands
somewhere from there on as a whole word. -/
theorem searchFrom_iff (words : List String) (hw : ∀ w ∈ words, ProperWord w)
    (before : Option Char) (s : List Char) :
    searchFrom words before s = true ↔
      ∃ w ∈ words, ∃ pre post : List Char,
        s = pre ++ w.data ++ post ∧ wordAt (before.toList ++ pre).getLast? = false
          ∧ wordAt post.head? = false := by
  induction s generalizing before with
  | nil =>
    simp only [searchFrom]
    rw [matchAt_iff words hw]
    constructor
    · rintro ⟨w, hwm, post, h, h1, h2⟩
      exact ⟨w, hwm, [], post, by simpa using h, by cases before <;> simpa using h1, h2⟩
    · rintro ⟨w, hwm, pre, post, h, h1, h2⟩
      have hpre : pre = [] := by
        cases pre with
        | nil => rfl
        | cons a t => simp at h
      subst hpre
      exact ⟨w, hwm, post, by simpa using h, by cases before <;> simpa using h1, h2⟩
  | cons c cs ih =>
    simp only [searchFrom, Bool.or_eq_true]
    rw [matchAt_iff words hw, ih (some c)]
    constructor
    · rintro (⟨w, hwm, post, h, h1, h2⟩ | ⟨w, hwm, pre, post, h, h1, h2⟩)
      · exact ⟨w, hwm, [], post, by simpa using h, by cases before <;> simpa using h1, h2⟩
      · refine ⟨w, hwm, c :: pre, post, by simp [h], ?_, h2⟩
        rw [List.getLast?_append_of_ne_nil _ (List.cons_ne_nil c pre)]
        simpa using h1
    · rintro ⟨w, hwm, pre, post, h, h1, h2⟩
      cases pre with
      | nil =>
        left
        exact ⟨w, hwm, post, by simpa using h, by cases before <;> simpa using h1, h2⟩
      | cons a t =>
        right
        simp only [List.cons_append, List.cons.injEq] at h
        obtain ⟨rfl, h⟩ := h
        refine ⟨w, hwm, t, post, h, ?_, h2⟩
        rw [List.getLast?_append_of_ne_nil _ (List.cons_ne_nil c t)] at h1
        simpa using h1

/-- The pattern matches exactly when one of its keywords occurs as a whole word. -/
theorem matchWords_iff (words : List String) (hw : ∀ w ∈ words, ProperWord w) (s : String) :
    matchWords words s = true ↔ ∃ w ∈ words, OccursAsWord w s := by
  unfold matchWords OccursAsWord
  rw [searchFrom_iff words hw]
  simp

theorem properWord_lawWords : ∀ w ∈ lawWords, ProperWord w := by
  unfold ProperWord; decide

theorem properWord_representativeWords : ∀ w ∈ representativeWords, ProperWord w := by
  unfold ProperWord; decide

theorem properWord_factCheckWords : ∀ w ∈ factCheckWords, ProperWord w := by
  unfold ProperWord; decide

theorem properWord_grievanceWords : ∀ w ∈ grievanceWords, ProperWord w := by
  unfold ProperWord; decide

theorem matchWords_lawWords (text : String) :
    matchWords lawWords (toLowerCase text) = true ↔ HasWord lawWords text :=
  matchWords_iff _ properWord_lawWords _

theorem matchWords_representativeWords (text : String) :
    matchWords representativeWords (toLowerCase text) = true
      ↔ HasWord representativeWords text :=
  matchWords_iff _ properWord_representativeWords _

theorem matchWords_factCheckWords (text : String) :
    matchWords factCheckWords (toLowerCase text) = true ↔ HasWord factCheckWords text :=
  matchWords_iff _ properWord_factCheckWords _

theorem matchWords_grievanceWords (text : String) :
    matchWords grievanceWords (toLowerCase text) = true ↔ HasWord grievanceWords text :=
  matchWords_iff _ properWord_grievanceWords _

/-! ## Lemmas on cache keys and on the cache of `RAGSystem` -/

theorem Cache.get_set_of_ne (c : Cache) {k k' : String} (e : CacheEntry) (h : k ≠ k') :
    (c.set k e).get k' = c.get k' := by
  induction c with
  | nil => simp [Cache.set, Cache.get, h]
  | cons hd t ih =>
    obtain ⟨k0, e0⟩ := hd
    by_cases h0 : k0 = k
    · subst h0
      simp [Cache.set, Cache.get, h]
    · by_cases h1 : k0 = k'
      · subst h1
        simp [Cache.set, Cache.get, h0]
      · simp [Cache.set, Cache.get, h0, h1, ih]

/-- For one intent, different queries have different keys. -/
theorem cacheKey_injective_query (intent q1 q2 : String)
    (h : cacheKey intent q1 = cacheKey intent q2) : q1 = q2 := by
  have hd := congrArg String.data h
  simp only [cacheKey, String.data_append] at hd
  exact String.ext (List.append_cancel_left hd)

/-- A call changes no entry under another key. -/
theorem fetch_get_of_ne (env : Env) (now stamp : Int) (cache : Cache) (query intent : String)
    {k : String} (hk : cacheKey intent query ≠ k) :
    (fetchRelevantData env now stamp cache query intent).cache.get k = cache.get k := by
  cases hl : liveEntry cache (cacheKey intent query) now with
  | some d => rw [fetch_hit env now stamp cache query intent hl]
  | none =>
    rw [(fetch_miss env now stamp cache query intent hl).1]
    exact Cache.get_set_of_ne _ _ hk

/-- The value and the calls of `fetchRelevantData` depend on the cache only
through the entry under the key of the call. -/
theorem fetch_congr_get (env : Env) (now stamp : Int) (c1 c2 : Cache) (query intent : String)
    (h : c1.get (cacheKey intent query) = c2.get (cacheKey intent query)) :
    (fetchRelevantData env now stamp c1 query intent).value
        = (fetchRelevantData env now stamp c2 query intent).value
      ∧ (fetchRelevantData env now stamp c1 query intent).invoked
        = (fetchRelevantData env now stamp c2 query intent).invoked := by
  have hl : liveEntry c1 (cacheKey intent query) now = liveEntry c2 (cacheKey intent query) now := by
    unfold liveEntry
    rw [h]
  cases h2 : liveEntry c2 (cacheKey intent query) now with
  | some d =>
    rw [fetch_hit env now stamp c1 query intent (hl.trans h2),
      fetch_hit env now stamp c2 query intent h2]
    exact ⟨rfl, rfl⟩
  | none =>
    have m1 := fetch_miss env now stamp c1 query intent (hl.trans h2)
    have m2 := fetch_miss env now stamp c2 query intent h2
    exact ⟨m1.2.2.trans m2.2.2.symm, m1.2.1.trans m2.2.1.symm⟩

theorem RAGSystem.Store.get_set_eq {α : Type} (c : RAGSystem.Store α) (k : String)
    (e : RAGSystem.Entry α) : (c.set k e).get k = some e := by
  induction c with
  | nil => simp [RAGSystem.Store.set, RAGSystem.Store.get]
  | cons hd t ih =>
    obtain ⟨k0, e0⟩ := hd
    by_cases h0 : k0 = k <;> simp [RAGSystem.Store.set, RAGSystem.Store.get, h0, ih]

theorem RAGSystem.Store.get_set_other {α : Type} (c : RAGSystem.Store α) {k k' : String}
    (e : RAGSystem.Entry α) (h : k ≠ k') : (c.set k e).get k' = c.get k' := by
  induction c with
  | nil => simp [RAGSystem.Store.set, RAGSystem.Store.get, h]
  | cons hd t ih =>
    obtain ⟨k0, e0⟩ := hd
    by_cases h0 : k0 = k
    · subst h0
      simp [RAGSystem.Store.set, RAGSystem.Store.get, h]
    · by_cases h1 : k0 = k'
      · subst h1
        simp [RAGSystem.Store.set, RAGSystem.Store.get, h0]
      · simp [RAGSystem.Store.set, RAGSystem.Store.get, h0, h1, ih]

/-- `getCached` returns the map it was given. -/
theorem RAGSystem.getCached_snd {α : Type} (c : RAGSystem.Store α) (now : Int) (key : String) :
    (RAGSystem.getCached c now key).2 = c := by
  unfold RAGSystem.getCached
  split
  · split <;> rfl
  · rfl

/-- Calls that are neither a `setCache` of `key` nor a `clearCache` leave the
entry under `key` as it is. -/
theorem RAGSystem.run_get {α : Type} (key : String) (ops : List (Int × RAGSystem.Op α))
    (hops : ∀ op ∈ ops, RAGSystem.Op.writes key op.2 = false) (c : RAGSystem.Store α) :
    (RAGSystem.run c ops).get key = c.get key := by
  induction ops generalizing c with
  | nil => rfl
  | cons hd rest ih =>
    obtain ⟨now, op⟩ := hd
    have hop : RAGSystem.Op.writes key op = false := hops (now, op) (by simp)
    have hrest : ∀ op ∈ rest, RAGSystem.Op.writes key op.2 = false :=
      fun o ho => hops o (List.mem_cons_of_mem _ ho)
    simp only [RAGSystem.run]
    rw [ih hrest]
    cases op with
    | getCached k => simp [RAGSystem.step, RAGSystem.getCached_snd]
    | setCache k d =>
      have hk : k ≠ key := by simpa [RAGSystem.Op.writes] using hop
      exact RAGSystem.Store.get_set_other _ _ hk
    | clearCache => simp [RAGSystem.Op.writes] at hop

/-! ## Lemmas on the keys of the five intents -/

/-- The first two characters of a key are those of the intent, when it has two. -/
theorem cacheKey_take_two (intent query : String) (hlen : 2 ≤ intent.data.length) :
    (cacheKey intent query).data.take 2 = intent.data.take 2 := by
  simp only [cacheKey, String.data_append, List.append_assoc]
  exact List.take_append_of_le_length hlen

theorem intentTags_length : ∀ i ∈ intentTags, 2 ≤ i.data.length := by decide

theorem intentTags_take_two :
    ∀ i1 ∈ intentTags, ∀ i2 ∈ intentTags, i1.data.take 2 = i2.data.take 2 → i1 = i2 := by
  decide

/-- Keys built from the five intents determine the intent and the query. -/
theorem cacheKey_injective_tags {i1 i2 : String} (q1 q2 : String)
    (h1 : i1 ∈ intentTags) (h2 : i2 ∈ intentTags)
    (h : cacheKey i1 q1 = cacheKey i2 q2) : i1 = i2 ∧ q1 = q2 := by
  have ht : i1.data.take 2 = i2.data.take 2 := by
    rw [← cacheKey_take_two i1 q1 (intentTags_length i1 h1),
      ← cacheKey_take_two i2 q2 (intentTags_length i2 h2), h]
  have hi : i1 = i2 := intentTags_take_two i1 h1 i2 h2 ht
  subst hi
  exact ⟨rfl, cacheKey_injective_query i1 q1 q2 h⟩

theorem detectIntent_mem_intentTags (text : String) : detectIntent text ∈ intentTags := by
  unfold detectIntent intentTags
  simp only []
  split_ifs <;> simp

/-! ## Lemmas on the two aggregators on new instances -/

theorem indiacode_key_ne_prs_key (query : String) :
    "indiacode_" ++ query ≠ "prs_" ++ query := by
  intro h
  have hd := congrArg (fun s : String => s.data.take 1) h
  simp only [String.data_append] at hd
  rw [List.take_append_of_le_length (by decide),
    List.take_append_of_le_length (by decide)] at hd
  exact absurd hd (by decide)

/-- The items `IndianCivicRAG` gathers with the methods of the source. -/
theorem tryResults_builtin (query intent : String) :
    tryResults builtin query intent
      = (if intent = "law" then
           [⟨"India Code", "Legal acts, sections, and amendments related to: " ++ query,
              "https://indiacode.nic.in"⟩,
            ⟨"PRS Legislative Research",
              "Legislative analysis and bill information for: " ++ query,
              "https://prsindia.org"⟩]
         else if intent = "representative" then
           [⟨"MyNeta (ADR)",
              "Representative profiles, criminal cases, and asset information for: " ++ query,
              "https://myneta.info"⟩,
            ⟨"Election Commission of India",
              "Electoral data and constituency information for: " ++ query,
              "https://eci.gov.in"⟩]
         else if intent = "fact-check" then
           [⟨"PIB Fact Check",
              "Official government fact-check and verification for: " ++ query,
              "https://pib.gov.in"⟩]
         else
           [⟨"Data.gov.in",
              "Government schemes, statistics, and public data for: " ++ query,
              "https://data.gov.in"⟩]) := by
  unfold tryResults switchIntent
  split_ifs <;> rfl

/-- The items `RAGSystem` gathers on a new instance. -/
theorem RAGSystem.switchIntent_new (times : Provider → Int × Int) (query intent : String) :
    (RAGSystem.switchIntent times [] query intent).1
      = .ok (if intent = "law" then
           [⟨"India Code", "Legal acts, sections, and amendments related to: " ++ query,
              "https://indiacode.nic.in"⟩,
            ⟨"PRS Legislative Research",
              "Legislative analysis and bill information for: " ++ query,
              "https://prsindia.org"⟩]
         else if intent = "representative" then
           [⟨"MyNeta (ADR)",
              "Representative profiles, criminal cases, and asset information for: " ++ query,
              "https://myneta.info"⟩]
         else if intent = "fact-check" then
           [⟨"PIB Fact Check",
              "Official government fact-check and verification for: " ++ query,
              "https://pib.gov.in"⟩]
         else
           [⟨"Data.gov.in",
              "Government schemes, statistics, and public data for: " ++ query,
              "https://data.gov.in"⟩]) := by
  unfold RAGSystem.switchIntent
  split_ifs
  · simp [RAGSystem.fetchIndiaCodeData, RAGSystem.fetchPRSData, RAGSystem.getCached,
      RAGSystem.setCache, RAGSystem.Store.get, RAGSystem.Store.set,
      indiacode_key_ne_prs_key query, awaitAll, pushIf]
  · simp [RAGSystem.fetchMyNetaData, RAGSystem.getCached, RAGSystem.Store.get, await, pushIf]
  · simp [RAGSystem.fetchPIBFactCheck, RAGSystem.getCached, RAGSystem.Store.get, await, pushIf]
  · simp [RAGSystem.fetchGovernmentData, RAGSystem.getCached, RAGSystem.Store.get, await,
      pushIf]

/-! ## Lemmas on the neutrality check -/

theorem includesFrom_iff_substring (w s : List Char) : includesFrom w s = true ↔ w <:+: s := by
  induction s with
  | nil => simp [includesFrom]
  | cons c rest ih => simp [includesFrom, List.infix_cons_iff, ih]

theorem includes_iff_contains (s w : String) : includes s w = true ↔ Contains s w := by
  unfold includes Contains
  rw [includesFrom_iff_substring]
  constructor
  · rintro ⟨pre, post, h⟩
    exact ⟨pre, post, h.symm⟩
  · rintro ⟨pre, post, h⟩
    exact ⟨pre, post, h.symm⟩

/-- The check fails exactly on the prompts whose lower case has a bias phrase
as a substring. -/
theorem validatePromptNeutrality_eq_false_iff (prompt : String) :
    validatePromptNeutrality prompt = false
      ↔ ∃ w ∈ biasWords, Contains (toLowerCase prompt) w := by
  unfold validatePromptNeutrality
  simp only []
  cases hf : biasWords.find? fun biasWord => includes (toLowerCase prompt) biasWord with
  | none =>
    simp only [Bool.true_eq_false, false_iff, not_exists, not_and]
    intro w hw hc
    have hnone := List.find?_eq_none.mp hf w hw
    exact hnone ((includes_iff_contains _ _).mpr hc)
  | some w =>
    simp only [true_iff]
    exact ⟨w, List.mem_of_find?_eq_some hf,
      (includes_iff_contains _ _).mp (by simpa using List.find?_some hf)⟩

set_option maxRecDepth 100000 in
set_option maxHeartbeats 4000000 in
theorem validatePromptNeutrality_QA_PROMPT :
    validatePromptNeutrality CIVIC_PROMPTS.QA_PROMPT = false := by
  decide

set_option maxRecDepth 100000 in
set_option maxHeartbeats 4000000 in
theorem validatePromptNeutrality_POLICY_SUMMARY_PROMPT :
    validatePromptNeutrality CIVIC_PROMPTS.POLICY_SUMMARY_PROMPT = true := by
  decide

set_option maxRecDepth 100000 in
set_option maxHeartbeats 4000000 in
theorem validatePromptNeutrality_FACT_CHECK_PROMPT :
    validatePromptNeutrality CIVIC_PROMPTS.FACT_CHECK_PROMPT = true := by
  decide

set_option maxRecDepth 100000 in
set_option maxHeartbeats 4000000 in
theorem validatePromptNeutrality_GRIEVANCE_PROMPT :
    validatePromptNeutrality CIVIC_PROMPTS.GRIEVANCE_PROMPT = true := by
  decide

set_option maxRecDepth 100000 in
set_option maxHeartbeats 4000000 in
theorem validatePromptNeutrality_REPRESENTATIVE_INFO_PROMPT :
    validatePromptNeutrality CIVIC_PROMPTS.REPRESENTATIVE_INFO_PROMPT = true := by
  decide

set_option maxRecDepth 100000 in
set_option maxHeartbeats 4000000 in
theorem validatePromptNeutrality_LEGAL_EXPLANATION_PROMPT :
    validatePromptNeutrality CIVIC_PROMPTS.LEGAL_EXPLANATION_PROMPT = true := by
  decide

set_option maxRecDepth 100000 in
set_option maxHeartbeats 4000000 in
theorem validatePromptNeutrality_SCHEME_INFO_PROMPT :
    validatePromptNeutrality CIVIC_PROMPTS.SCHEME_INFO_PROMPT = true := by
  decide

set_option maxRecDepth 100000 in
set_option maxHeartbeats 4000000 in
theorem validatePromptNeutrality_ELECTION_INFO_PROMPT :
    validatePromptNeutrality CIVIC_PROMPTS.ELECTION_INFO_PROMPT = true := by
  decide

/-! ## The claims -/

/-- C1. On a new instance whose provider methods all resolve to `null`, every
call returns the object `{source: "System", data: <sentence>, url: ""}`: it has
a property `url` holding the empty string and no property `urls`, so it is not
the bundle with `urls: []`. -/
theorem C1_fallback_has_url_not_urls (now stamp : Int) (query intent : String) :
    (fetchRelevantData allNull now stamp [] query intent).value
        = { source := "System"
            data := "Verified public information is currently unavailable for this topic."
            url := some ""
            urls := none }
      ∧ (fetchRelevantData allNull now stamp [] query intent).value.urls ≠ some []
      ∧ (fetchRelevantData allNull now stamp [] query intent).value
        ≠ { source := "System"
            data := "Verified public information is currently unavailable for this topic."
            url := none
            urls := some [] } := by
  rw [fetch_miss_empty allNull now stamp [] query intent (liveEntry_nil _ _)
    (tryResults_allNull query intent)]
  simp [fallback]

/-- C2. On a cache miss in which the called providers are fulfilled with
`outcomes` (an item or `null` each, in call order) and at least one of them is
an item, the returned bundle has the sources of the items joined by `", "`,
their data joined by a blank line, and the non-empty urls, all in call order. -/
theorem C2_merge_in_invocation_order (env : Env) (now stamp : Int) (cache : Cache)
    (query intent : String) (outcomes : List (Option EvidenceItem))
    (hmiss : liveEntry cache (cacheKey intent query) now = none)
    (hout : (fetchRelevantData env now stamp cache query intent).invoked.map
        (fun p => env p query) = outcomes.map Settled.fulfilled)
    (hne : outcomes.filterMap id ≠ []) :
    (fetchRelevantData env now stamp cache query intent).value
      = { source := join ", " ((outcomes.filterMap id).map fun r => r.source)
          data := join "\n\n" ((outcomes.filterMap id).map fun r => r.data)
          url := none
          urls := some (((outcomes.filterMap id).map fun r => r.url).filter fun u => u ≠ "") } := by
  rw [(fetch_miss env now stamp cache query intent hmiss).2.1] at hout
  have hres := tryResults_of_fulfilled env query intent outcomes hout
  rw [fetch_miss_items env now stamp cache query intent hmiss (by rw [hres]; exact hne), hres]
  rfl

/-- The witness of C2: intent `law`, the legal-code method resolving to an item
and the legislative-research method to `null`. -/
theorem C2_merge_in_invocation_order_witness :
    liveEntry [] (cacheKey "law" "rti") 5 = none
      ∧ (fetchRelevantData prsNull 5 6 [] "rti" "law").value
        = { source := "India Code"
            data := "Legal acts, sections, and amendments related to: rti"
            url := none
            urls := some ["https://indiacode.nic.in"] } := by
  have h := C2_merge_in_invocation_order prsNull 5 6 [] "rti" "law"
    [some { source := "India Code"
            data := "Legal acts, sections, and amendments related to: rti"
            url := "https://indiacode.nic.in" }, none]
    (by decide) (by decide) (by decide)
  refine ⟨by decide, ?_⟩
  rw [h]
  decide

/-- C3. Two calls in sequence with the same query and intent. A first call that
misses stores its value with the reading `stamp1`; whenever the second call is
made less than `cacheTimeout` after the entry under the key was stored, it
returns the value of the first call, calls no provider and leaves the cache as
it was, so that over both calls each provider method is called at most once.
Holds for every starting cache and whatever the providers do in either call. -/
theorem C3_idempotent_within_ttl (env1 env2 : Env) (now1 stamp1 now2 stamp2 : Int)
    (cache : Cache) (query intent : String) :
    (liveEntry cache (cacheKey intent query) now1 = none →
        (fetchRelevantData env1 now1 stamp1 cache query intent).cache.get (cacheKey intent query)
          = some { data := (fetchRelevantData env1 now1 stamp1 cache query intent).value
                   timestamp := stamp1 })
      ∧ ∀ e : CacheEntry,
          (fetchRelevantData env1 now1 stamp1 cache query intent).cache.get (cacheKey intent query)
            = some e →
          now2 - e.timestamp < cacheTimeout →
          (fetchRelevantData env2 now2 stamp2
              (fetchRelevantData env1 now1 stamp1 cache query intent).cache query intent).value
            = (fetchRelevantData env1 now1 stamp1 cache query intent).value
          ∧ (fetchRelevantData env2 now2 stamp2
              (fetchRelevantData env1 now1 stamp1 cache query intent).cache query intent).invoked
            = []
          ∧ ∀ p : Provider,
              ((fetchRelevantData env1 now1 stamp1 cache query intent).invoked
                ++ (fetchRelevantData env2 now2 stamp2
                    (fetchRelevantData env1 now1 stamp1 cache query intent).cache
                    query intent).invoked).count p ≤ 1 := by
  have hstore : liveEntry cache (cacheKey intent query) now1 = none →
      (fetchRelevantData env1 now1 stamp1 cache query intent).cache.get (cacheKey intent query)
        = some { data := (fetchRelevantData env1 now1 stamp1 cache query intent).value
                 timestamp := stamp1 } := by
    intro hmiss
    rw [(fetch_miss env1 now1 stamp1 cache query intent hmiss).1]
    exact Cache.get_set_self _ _ _
  refine ⟨hstore, ?_⟩
  intro e hget hlive
  have hcount : ∀ p : Provider,
      (fetchRelevantData env1 now1 stamp1 cache query intent).invoked.count p ≤ 1 := by
    intro p
    cases hl : liveEntry cache (cacheKey intent query) now1 with
    | some d => simp [fetch_hit env1 now1 stamp1 cache query intent hl]
    | none =>
      rw [(fetch_miss env1 now1 stamp1 cache query intent hl).2.1, switchIntent_fst]
      split_ifs <;> cases p <;> decide
  have hval : e.data = (fetchRelevantData env1 now1 stamp1 cache query intent).value := by
    cases hl : liveEntry cache (cacheKey intent query) now1 with
    | some d =>
      rw [fetch_hit env1 now1 stamp1 cache query intent hl] at hget ⊢
      simp only at hget ⊢
      rw [liveEntry_of_get now1 hget] at hl
      split_ifs at hl
      exact Option.some.inj hl
    | none =>
      rw [hstore hl] at hget
      rw [← Option.some.inj hget]
  have hhit := fetch_hit env2 now2 stamp2
    (fetchRelevantData env1 now1 stamp1 cache query intent).cache query intent
    (d := e.data) (by rw [liveEntry_of_get now2 hget, if_pos hlive])
  rw [hhit]
  refine ⟨hval, rfl, ?_⟩
  intro p
  simpa using hcount p

/-- The witness of C3: a first call on a new instance, a second one 1,799,999 ms
after the entry was stored, with providers that would now resolve to `null`. -/
theorem C3_idempotent_within_ttl_witness :
    (fetchRelevantData builtin 1000 1010 [] "rti" "law").cache.get (cacheKey "law" "rti")
        = some { data := (fetchRelevantData builtin 1000 1010 [] "rti" "law").value
                 timestamp := 1010 }
      ∧ (1801009 : Int) - 1010 < cacheTimeout
      ∧ (fetchRelevantData allNull 1801009 1801020
            (fetchRelevantData builtin 1000 1010 [] "rti" "law").cache "rti" "law").value
          = (fetchRelevantData builtin 1000 1010 [] "rti" "law").value :=
  ⟨by decide, by decide,
    ((C3_idempotent_within_ttl builtin allNull 1000 1010 1801009 1801020 [] "rti" "law").2
      { data := (fetchRelevantData builtin 1000 1010 [] "rti" "law").value, timestamp := 1010 }
      (by decide) (by decide)).1⟩

/-- C4. An entry under the key whose age `now - storedAt` has reached
`cacheTimeout` (equality included) is not reused: the call invokes the
providers of the intent and returns what a call on a new instance would, and
the entry under the key becomes that value with the new reading `stamp`. -/
theorem C4_expired_entry_refetched (env : Env) (now stamp : Int) (cache : Cache)
    (query intent : String) (e : CacheEntry)
    (hget : cache.get (cacheKey intent query) = some e)
    (hexp : now - e.timestamp ≥ cacheTimeout) :
    (fetchRelevantData env now stamp cache query intent).invoked
        = (fetchRelevantData env now stamp [] query intent).invoked
      ∧ (fetchRelevantData env now stamp cache query intent).invoked ≠ []
      ∧ (fetchRelevantData env now stamp cache query intent).value
        = (fetchRelevantData env now stamp [] query intent).value
      ∧ (fetchRelevantData env now stamp cache query intent).cache
        = cache.set (cacheKey intent query)
            { data := (fetchRelevantData env now stamp cache query intent).value
              timestamp := stamp }
      ∧ (fetchRelevantData env now stamp cache query intent).cache.get (cacheKey intent query)
        = some { data := (fetchRelevantData env now stamp cache query intent).value
                 timestamp := stamp } := by
  have hmiss : liveEntry cache (cacheKey intent query) now = none := by
    rw [liveEntry_of_get now hget, if_neg (not_lt.mpr hexp)]
  obtain ⟨hc, hi, hv⟩ := fetch_miss env now stamp cache query intent hmiss
  refine ⟨?_, ?_, hv, hc, ?_⟩
  · rw [hi, (fetch_miss env now stamp [] query intent (liveEntry_nil _ _)).2.1]
  · rw [hi]
    exact switchIntent_fst_ne_nil env query intent
  · rw [hc]
    exact Cache.get_set_self _ _ _

/-- The witness of C4: a fallback stored at 1000 and read at exactly
1000 + 1,800,000 is replaced by the bundle of the fact-check provider. -/
theorem C4_expired_entry_refetched_witness :
    Cache.get [("fact-check_is it true", { data := fallback, timestamp := 1000 })]
        (cacheKey "fact-check" "is it true") = some { data := fallback, timestamp := 1000 }
      ∧ (1801000 : Int) - 1000 ≥ cacheTimeout
      ∧ (fetchRelevantData builtin 1801000 1801001
          [("fact-check_is it true", { data := fallback, timestamp := 1000 })]
          "is it true" "fact-check").invoked ≠ [] :=
  ⟨by decide, by decide,
    (C4_expired_entry_refetched builtin 1801000 1801001
      [("fact-check_is it true", { data := fallback, timestamp := 1000 })]
      "is it true" "fact-check" { data := fallback, timestamp := 1000 }
      (by decide) (by decide)).2.1⟩

/-- C5, as the code has it. For the two-provider intents, when on a cache miss
the promise of one of the two selected providers is rejected (the provider
raises instead of returning an item or `null`), the exception is caught inside
`fetchRelevantData`, but the whole aggregation of that call is given up: no
item is kept (the one of the sibling neither), and the call returns and stores
the no-data bundle, with source `System` and the fixed sentence as data. -/
theorem C5_raise_abandons_aggregation (env : Env) (now stamp : Int) (cache : Cache)
    (query intent : String)
    (hmiss : liveEntry cache (cacheKey intent query) now = none)
    (hraise : (intent = "law"
          ∧ (env Provider.fetchIndiaCodeData query = .rejected
            ∨ env Provider.fetchPRSData query = .rejected))
        ∨ (intent = "representative"
          ∧ (env Provider.fetchMyNetaData query = .rejected
            ∨ env Provider.fetchECIData query = .rejected))) :
    (fetchRelevantData env now stamp cache query intent).value.source = "System"
      ∧ (fetchRelevantData env now stamp cache query intent).value.data
        = "Verified public information is currently unavailable for this topic."
      ∧ (fetchRelevantData env now stamp cache query intent).cache.get (cacheKey intent query)
        = some { data := (fetchRelevantData env now stamp cache query intent).value
                 timestamp := stamp } := by
  have hres : tryResults env query intent = [] := by
    rcases hraise with ⟨rfl, h | h⟩ | ⟨rfl, h | h⟩
    · exact tryResults_of_rejected env query "law" Provider.fetchIndiaCodeData
        (by rw [switchIntent_fst]; simp) h
    · exact tryResults_of_rejected env query "law" Provider.fetchPRSData
        (by rw [switchIntent_fst]; simp) h
    · exact tryResults_of_rejected env query "representative" Provider.fetchMyNetaData
        (by rw [switchIntent_fst]; simp) h
    · exact tryResults_of_rejected env query "representative" Provider.fetchECIData
        (by rw [switchIntent_fst]; simp) h
  have hcache := (fetch_miss env now stamp cache query intent hmiss).1
  refine ⟨?_, ?_, ?_⟩
  · rw [fetch_miss_empty env now stamp cache query intent hmiss hres]; rfl
  · rw [fetch_miss_empty env now stamp cache query intent hmiss hres]; rfl
  · rw [hcache]
    exact Cache.get_set_self _ _ _

/-- The witness of C5: intent `law` with the promise of the legislative-research
method rejected and the legal-code method resolving to its item. -/
theorem C5_raise_abandons_aggregation_witness :
    liveEntry [] (cacheKey "law" "rti") 0 = none
      ∧ prsRaises Provider.fetchPRSData "rti" = .rejected
      ∧ (fetchRelevantData prsRaises 0 1 [] "rti" "law").value.source = "System"
      ∧ (fetchRelevantData prsRaises 0 1 [] "rti" "law").cache.get (cacheKey "law" "rti")
        = some { data := (fetchRelevantData prsRaises 0 1 [] "rti" "law").value
                 timestamp := 1 } :=
  ⟨rfl, rfl,
    (C5_raise_abandons_aggregation prsRaises 0 1 [] "rti" "law" rfl
      (Or.inl ⟨rfl, Or.inr rfl⟩)).1,
    (C5_raise_abandons_aggregation prsRaises 0 1 [] "rti" "law" rfl
      (Or.inl ⟨rfl, Or.inr rfl⟩)).2.2⟩

/-- C5 as stated fails: for intent `law` on a new instance, with the legal-code
method resolving to its item, a legislative-research method that raises gives
the `System` bundle, while one that resolves to `null` gives the bundle of the
legal-code item. -/
theorem C5_raise_differs_from_null :
    (fetchRelevantData prsRaises 0 1 [] "rti" "law").value
        ≠ (fetchRelevantData prsNull 0 1 [] "rti" "law").value
      ∧ (fetchRelevantData prsRaises 0 1 [] "rti" "law").value.source = "System"
      ∧ (fetchRelevantData prsNull 0 1 [] "rti" "law").value.source = "India Code"
      ∧ (fetchRelevantData prsNull 0 1 [] "rti" "law").value.data
        = "Legal acts, sections, and amendments related to: rti" := by
  decide

/-- C6. For intent `law` on a cache miss, when one of the two providers resolves
to an item `r` and the other to `null`, whichever of the two it is, the bundle
has the source of `r` alone and the data of `r` alone; its urls are the url of
`r` if that is not empty. -/
theorem C6_single_law_survivor (env : Env) (now stamp : Int) (cache : Cache)
    (query : String) (r : EvidenceItem)
    (hmiss : liveEntry cache (cacheKey "law" query) now = none)
    (hone : (env Provider.fetchIndiaCodeData query = .fulfilled (some r)
          ∧ env Provider.fetchPRSData query = .fulfilled none)
        ∨ (env Provider.fetchIndiaCodeData query = .fulfilled none
          ∧ env Provider.fetchPRSData query = .fulfilled (some r))) :
    (fetchRelevantData env now stamp cache query "law").value.source = r.source
      ∧ (fetchRelevantData env now stamp cache query "law").value.data = r.data
      ∧ (fetchRelevantData env now stamp cache query "law").value.urls
        = some (if r.url = "" then [] else [r.url]) := by
  have hres : tryResults env query "law" = [r] := by
    rcases hone with ⟨h1, h2⟩ | ⟨h1, h2⟩
    · rw [tryResults_of_fulfilled env query "law" [some r, none]
        (by rw [switchIntent_fst]; simp [h1, h2])]
      rfl
    · rw [tryResults_of_fulfilled env query "law" [none, some r]
        (by rw [switchIntent_fst]; simp [h1, h2])]
      rfl
  rw [fetch_miss_items env now stamp cache query "law" hmiss (by rw [hres]; simp), hres]
  refine ⟨rfl, rfl, ?_⟩
  by_cases hu : r.url = "" <;> simp [combine, hu]

/-- The witness of C6: the legislative-research method resolves to `null`. -/
theorem C6_single_law_survivor_witness :
    liveEntry [] (cacheKey "law" "rti") 0 = none
      ∧ prsNull Provider.fetchPRSData "rti" = .fulfilled none
      ∧ (fetchRelevantData prsNull 0 1 [] "rti" "law").value.source = "India Code" :=
  ⟨rfl, rfl,
    (C6_single_law_survivor prsNull 0 1 [] "rti"
      { source := "India Code"
        data := "Legal acts, sections, and amendments related to: rti"
        url := "https://indiacode.nic.in" }
      rfl (Or.inl ⟨rfl, rfl⟩)).1⟩

/-- C7. After a cache miss on which no called provider resolved to an item, the
call has returned the no-data bundle (source `System`, the fixed sentence) and
the cache holds it under the key with the reading `stamp`; each of any number
of further calls with the same query and intent made less than `cacheTimeout`
after `stamp` returns that same bundle, calls no provider and leaves the cache
as it is, whatever the providers would now resolve to. -/
theorem C7_fallback_is_cached (env : Env) (now stamp : Int) (cache : Cache)
    (query intent : String) (later : List (Env × Int × Int))
    (hmiss : liveEntry cache (cacheKey intent query) now = none)
    (hnone : ∀ p ∈ (fetchRelevantData env now stamp cache query intent).invoked,
      ∀ item : EvidenceItem, env p query ≠ .fulfilled (some item))
    (hlater : ∀ c ∈ later, c.2.1 - stamp < cacheTimeout) :
    (fetchRelevantData env now stamp cache query intent).value.source = "System"
      ∧ (fetchRelevantData env now stamp cache query intent).value.data
        = "Verified public information is currently unavailable for this topic."
      ∧ (fetchRelevantData env now stamp cache query intent).cache.get (cacheKey intent query)
        = some { data := (fetchRelevantData env now stamp cache query intent).value
                 timestamp := stamp }
      ∧ (fetchAgain query intent
          (fetchRelevantData env now stamp cache query intent).cache later).length
        = later.length
      ∧ ∀ r ∈ fetchAgain query intent
            (fetchRelevantData env now stamp cache query intent).cache later,
          r.value = (fetchRelevantData env now stamp cache query intent).value
            ∧ r.invoked = []
            ∧ r.cache = (fetchRelevantData env now stamp cache query intent).cache := by
  rw [(fetch_miss env now stamp cache query intent hmiss).2.1] at hnone
  have hres := tryResults_of_no_item env query intent hnone
  have hget : (fetchRelevantData env now stamp cache query intent).cache.get
      (cacheKey intent query)
        = some { data := (fetchRelevantData env now stamp cache query intent).value
                 timestamp := stamp } := by
    rw [(fetch_miss env now stamp cache query intent hmiss).1]
    exact Cache.get_set_self _ _ _
  refine ⟨?_, ?_, hget, fetchAgain_length _ _ _ _, ?_⟩
  · rw [fetch_miss_empty env now stamp cache query intent hmiss hres]; rfl
  · rw [fetch_miss_empty env now stamp cache query intent hmiss hres]; rfl
  · intro r hr
    rw [fetchAgain_live query intent _ _ hget later hlater r hr]
    exact ⟨rfl, rfl, rfl⟩

/-- The witness of C7: the fact-check provider resolves to `null` at first; two
further calls within the window, made when it would resolve to its item. -/
theorem C7_fallback_is_cached_witness :
    liveEntry [] (cacheKey "fact-check" "is it true") 0 = none
      ∧ (∀ c ∈ [(builtin, (5 : Int), (6 : Int)), (builtin, 1800000, 1800001)],
          c.2.1 - 1 < cacheTimeout)
      ∧ ∀ r ∈ fetchAgain "is it true" "fact-check"
            (fetchRelevantData allNull 0 1 [] "is it true" "fact-check").cache
            [(builtin, 5, 6), (builtin, 1800000, 1800001)],
          r.value = (fetchRelevantData allNull 0 1 [] "is it true" "fact-check").value
            ∧ r.invoked = []
            ∧ r.cache = (fetchRelevantData allNull 0 1 [] "is it true" "fact-check").cache :=
  have hl : ∀ c ∈ [(builtin, (5 : Int), (6 : Int)), (builtin, 1800000, 1800001)],
      c.2.1 - 1 < cacheTimeout := by
    intro c hc
    simp only [List.mem_cons, List.mem_singleton, List.not_mem_nil, or_false] at hc
    rcases hc with rfl | rfl <;> decide
  ⟨rfl, hl,
    (C7_fallback_is_cached allNull 0 1 [] "is it true" "fact-check"
      [(builtin, 5, 6), (builtin, 1800000, 1800001)] rfl
      (by intro p _ item; simp [allNull]) hl).2.2.2.2⟩

/-- C8 fails where no item is kept. On a new instance whose providers all
resolve to `null`, and likewise for intent `law` when the legislative-research
method raises, the call does return (nothing is raised), but the object it
returns has no list `urls`; with the methods of the source it has one. -/
theorem C8_no_data_bundle_lacks_urls (now stamp : Int) (query intent : String) :
    (fetchRelevantData allNull now stamp [] query intent).value.wellFormed = false
      ∧ (fetchRelevantData prsRaises now stamp [] query "law").value.wellFormed = false
      ∧ (fetchRelevantData builtin now stamp [] query "law").value.wellFormed = true := by
  refine ⟨?_, ?_, ?_⟩
  · rw [fetch_miss_empty allNull now stamp [] query intent (liveEntry_nil _ _)
      (tryResults_allNull query intent)]
    rfl
  · rw [fetch_miss_empty prsRaises now stamp [] query "law" (liveEntry_nil _ _)
      (tryResults_of_rejected prsRaises query "law" Provider.fetchPRSData
        (by rw [switchIntent_fst]; simp) rfl)]
    rfl
  · rw [fetch_miss_items builtin now stamp [] query "law" (liveEntry_nil _ _)
      (by simp [tryResults, switchIntent, builtin, awaitAll, pushIf, fetchIndiaCodeData,
        fetchPRSData])]
    rfl

/-- C9, as the code has it. On every cache reachable by calls in which no
provider resolved to an item with empty `data`, a call in which none does
either returns a bundle whose `data` is not the empty string. -/
theorem C9_data_non_empty (env : Env) (now stamp : Int) (cache : Cache)
    (query intent : String)
    (hreach : Reachable NonEmptyData cache) (henv : NonEmptyData env) :
    (fetchRelevantData env now stamp cache query intent).value.data ≠ "" :=
  fetch_data_ne_empty env now stamp cache query intent henv (reachable_data_ne_empty hreach)

/-- The witness of C9: the methods of the source, on the cache an earlier call
with them has left. -/
theorem C9_data_non_empty_witness :
    Reachable NonEmptyData (fetchRelevantData builtin 0 1 [] "rti" "law").cache
      ∧ NonEmptyData builtin
      ∧ (fetchRelevantData builtin 7 8 (fetchRelevantData builtin 0 1 [] "rti" "law").cache
          "is it true" "fact-check").value.data ≠ "" :=
  ⟨Reachable.call builtin 0 1 "rti" "law" Reachable.new nonEmptyData_builtin,
    nonEmptyData_builtin,
    C9_data_non_empty builtin 7 8 (fetchRelevantData builtin 0 1 [] "rti" "law").cache
      "is it true" "fact-check"
      (Reachable.call builtin 0 1 "rti" "law" Reachable.new nonEmptyData_builtin)
      nonEmptyData_builtin⟩

/-- C9 as stated fails: with the fact-check method resolving to an item whose
`data` is the empty string, the returned bundle has `data` the empty string. -/
theorem C9_empty_data_item_gives_empty_data :
    (fetchRelevantData pibEmptyData 0 1 [] "is it true" "fact-check").value.data = ""
      ∧ (fetchRelevantData pibEmptyData 0 1 [] "is it true" "fact-check").value.source
        = "PIB Fact Check" := by
  decide

/-- C10. On a cache miss the methods called are a function of the intent
alone, and never none: `law` calls the legal-code then the
legislative-research method, `representative` the representative-registry then
the election-commission method, `fact-check` the fact-check method, and every
other string (so `grievance`, `general`, unknown ones) the open-government-data
method. With the methods of the source the bundle names them accordingly. -/
theorem C10_providers_fixed_by_intent (env : Env) (now stamp : Int) (cache : Cache)
    (query intent : String)
    (hmiss : liveEntry cache (cacheKey intent query) now = none) :
    (fetchRelevantData env now stamp cache query intent).invoked
        = (if intent = "law" then [Provider.fetchIndiaCodeData, Provider.fetchPRSData]
           else if intent = "representative" then
             [Provider.fetchMyNetaData, Provider.fetchECIData]
           else if intent = "fact-check" then [Provider.fetchPIBFactCheck]
           else [Provider.fetchGovernmentData])
      ∧ (fetchRelevantData env now stamp cache query intent).invoked ≠ []
      ∧ (fetchRelevantData builtin now stamp cache query intent).value.source
        = (if intent = "law" then "India Code, PRS Legislative Research"
           else if intent = "representative" then "MyNeta (ADR), Election Commission of India"
           else if intent = "fact-check" then "PIB Fact Check"
           else "Data.gov.in") := by
  refine ⟨?_, ?_, ?_⟩
  · rw [(fetch_miss env now stamp cache query intent hmiss).2.1, switchIntent_fst]
  · rw [(fetch_miss env now stamp cache query intent hmiss).2.1]
    exact switchIntent_fst_ne_nil env query intent
  · have hres : tryResults builtin query intent
        = (if intent = "law" then
             [⟨"India Code", "Legal acts, sections, and amendments related to: " ++ query,
                "https://indiacode.nic.in"⟩,
              ⟨"PRS Legislative Research",
                "Legislative analysis and bill information for: " ++ query,
                "https://prsindia.org"⟩]
           else if intent = "representative" then
             [⟨"MyNeta (ADR)",
                "Representative profiles, criminal cases, and asset information for: " ++ query,
                "https://myneta.info"⟩,
              ⟨"Election Commission of India",
                "Electoral data and constituency information for: " ++ query,
                "https://eci.gov.in"⟩]
           else if intent = "fact-check" then
             [⟨"PIB Fact Check",
                "Official government fact-check and verification for: " ++ query,
                "https://pib.gov.in"⟩]
           else
             [⟨"Data.gov.in",
                "Government schemes, statistics, and public data for: " ++ query,
                "https://data.gov.in"⟩]) := by
      unfold tryResults switchIntent
      split_ifs <;> rfl
    rw [fetch_miss_items builtin now stamp cache query intent hmiss
      (by rw [hres]; split_ifs <;> simp), hres]
    split_ifs <;> rfl

/-- The witness of C10: intent `grievance` on a new instance. -/
theorem C10_providers_fixed_by_intent_witness :
    liveEntry [] (cacheKey "grievance" "pothole complaint") 0 = none
      ∧ (fetchRelevantData builtin 0 0 [] "pothole complaint" "grievance").invoked
        = [Provider.fetchGovernmentData] :=
  ⟨rfl, (C10_providers_fixed_by_intent builtin 0 0 [] "pothole complaint" "grievance" rfl).1⟩

/-- C11. On a live hit (an entry `e` under the key with `now - e.timestamp <
cacheTimeout`) the call returns the stored bundle, calls no provider and
leaves the cache as it is, so `e` is still the entry under the key, with its
old timestamp. The window therefore runs from the write: a later call with
`now2 - e.timestamp ≥ cacheTimeout` misses and calls the providers, however
shortly after the read it comes. -/
theorem C11_live_hit_changes_nothing (env : Env) (now stamp : Int) (cache : Cache)
    (query intent : String) (e : CacheEntry)
    (hget : cache.get (cacheKey intent query) = some e)
    (hlive : now - e.timestamp < cacheTimeout) :
    (fetchRelevantData env now stamp cache query intent).value = e.data
      ∧ (fetchRelevantData env now stamp cache query intent).invoked = []
      ∧ (fetchRelevantData env now stamp cache query intent).cache = cache
      ∧ (fetchRelevantData env now stamp cache query intent).cache.get (cacheKey intent query)
        = some e
      ∧ ∀ (env2 : Env) (now2 stamp2 : Int), now2 - e.timestamp ≥ cacheTimeout →
          (fetchRelevantData env2 now2 stamp2
              (fetchRelevantData env now stamp cache query intent).cache query intent).invoked
            ≠ [] := by
  have hhit := fetch_hit env now stamp cache query intent (d := e.data)
    (by rw [liveEntry_of_get now hget, if_pos hlive])
  rw [hhit]
  refine ⟨rfl, rfl, rfl, hget, ?_⟩
  intro env2 now2 stamp2 hexp
  have hmiss : liveEntry cache (cacheKey intent query) now2 = none := by
    rw [liveEntry_of_get now2 hget, if_neg (not_lt.mpr hexp)]
  show (fetchRelevantData env2 now2 stamp2 cache query intent).invoked ≠ []
  rw [(fetch_miss env2 now2 stamp2 cache query intent hmiss).2.1]
  exact switchIntent_fst_ne_nil env2 query intent

/-- The witness of C11: an entry written at 1000 is read at 1,800,999 without
any change, and a call one millisecond after that read misses. -/
theorem C11_live_hit_changes_nothing_witness :
    Cache.get [("law_rti", { data := fallback, timestamp := 1000 })] (cacheKey "law" "rti")
        = some { data := fallback, timestamp := 1000 }
      ∧ (1800999 : Int) - 1000 < cacheTimeout
      ∧ (fetchRelevantData builtin 1800999 1801000
          [("law_rti", { data := fallback, timestamp := 1000 })] "rti" "law").cache
        = [("law_rti", { data := fallback, timestamp := 1000 })]
      ∧ (1801000 : Int) - 1000 ≥ cacheTimeout :=
  ⟨by decide, by decide,
    (C11_live_hit_changes_nothing builtin 1800999 1801000
      [("law_rti", { data := fallback, timestamp := 1000 })] "rti" "law"
      { data := fallback, timestamp := 1000 } (by decide) (by decide)).2.2.1,
    by decide⟩

/-- C12. `detectIntent` gives the tag of the first of the four groups, in the
order law, representative, fact-check, grievance, that has a keyword occurring
in the lower-cased text as a whole word (no ASCII letter, digit or underscore
right before or right after it), and `general` exactly when no group has one.
A keyword inside a longer word does not count. -/
theorem C12_detectIntent_first_group (text : String) :
    (detectIntent text = "law" ↔ HasWord lawWords text)
      ∧ (detectIntent text = "representative" ↔
          ¬ HasWord lawWords text ∧ HasWord representativeWords text)
      ∧ (detectIntent text = "fact-check" ↔
          ¬ HasWord lawWords text ∧ ¬ HasWord representativeWords text
            ∧ HasWord factCheckWords text)
      ∧ (detectIntent text = "grievance" ↔
          ¬ HasWord lawWords text ∧ ¬ HasWord representativeWords text
            ∧ ¬ HasWord factCheckWords text ∧ HasWord grievanceWords text)
      ∧ (detectIntent text = "general" ↔
          ¬ HasWord lawWords text ∧ ¬ HasWord representativeWords text
            ∧ ¬ HasWord factCheckWords text ∧ ¬ HasWord grievanceWords text)
      ∧ detectIntent "factory" = "general"
      ∧ detectIntent "actor" = "general"
      ∧ detectIntent "billing" = "general" := by
  have h1 := matchWords_lawWords text
  have h2 := matchWords_representativeWords text
  have h3 := matchWords_factCheckWords text
  have h4 := matchWords_grievanceWords text
  refine ⟨?_, ?_, ?_, ?_, ?_, by decide, by decide, by decide⟩ <;>
    rw [← h1] <;> (try rw [← h2]) <;> (try rw [← h3]) <;> (try rw [← h4]) <;>
    unfold detectIntent <;>
    by_cases a : matchWords lawWords (toLowerCase text) = true <;>
    by_cases b : matchWords representativeWords (toLowerCase text) = true <;>
    by_cases c : matchWords factCheckWords (toLowerCase text) = true <;>
    by_cases d : matchWords grievanceWords (toLowerCase text) = true <;>
    simp [a, b, c, d]

/-- C13. A text whose lower case has a law keyword as a whole word is classified
`law`, whatever keywords of the other groups it has besides: the law pattern
is tested first. So is `What is the Right to Information Act?`, and so is a
text in capitals with keywords of all four groups. -/
theorem C13_law_keyword_wins (text : String) (hlaw : HasWord lawWords text) :
    detectIntent text = "law"
      ∧ detectIntent "What is the Right to Information Act?" = "law"
      ∧ detectIntent "FAKE CLAIM: MINISTER HAS A COMPLAINT IN COURT" = "law" := by
  refine ⟨?_, by decide, by decide⟩
  have h1 := (matchWords_lawWords text).mpr hlaw
  unfold detectIntent
  simp [h1]

/-- The witness of C13: `act` stands in the lower case of the question between
a blank and the question mark. -/
theorem C13_law_keyword_wins_witness :
    HasWord lawWords "What is the Right to Information Act?"
      ∧ detectIntent "What is the Right to Information Act?" = "law" :=
  have h : HasWord lawWords "What is the Right to Information Act?" :=
    ⟨"act", by decide, "what is the right to information ".data, "?".data,
      by decide, by decide, by decide⟩
  ⟨h, (C13_law_keyword_wins "What is the Right to Information Act?" h).1⟩

/-- C14. `detectLanguage` gives `hindi` when the text has a character in
U+0900..U+097F, otherwise `tamil` for one in U+0B80..U+0BFF, otherwise
`malayalam` for one in U+0D00..U+0D7F, otherwise `telugu` for one in
U+0C00..U+0C7F, otherwise `english`. A text with Tamil, Telugu and Devanagari
characters gives `hindi`, one with Telugu and Malayalam gives `malayalam`. -/
theorem C14_detectLanguage_priority (text : String) :
    detectLanguage text =
        (if ∃ c ∈ text.data, 0x0900 ≤ c.toNat ∧ c.toNat ≤ 0x097F then "hindi"
         else if ∃ c ∈ text.data, 0x0B80 ≤ c.toNat ∧ c.toNat ≤ 0x0BFF then "tamil"
         else if ∃ c ∈ text.data, 0x0D00 ≤ c.toNat ∧ c.toNat ≤ 0x0D7F then "malayalam"
         else if ∃ c ∈ text.data, 0x0C00 ≤ c.toNat ∧ c.toNat ≤ 0x0C7F then "telugu"
         else "english")
      ∧ detectLanguage
          (String.mk [Char.ofNat 0x0BA4, Char.ofNat 0x0C24, Char.ofNat 0x20, Char.ofNat 0x0928])
        = "hindi"
      ∧ detectLanguage (String.mk [Char.ofNat 0x0C24, Char.ofNat 0x61, Char.ofNat 0x0D2E])
        = "malayalam" := by
  refine ⟨?_, by decide, by decide⟩
  have key : ∀ lo hi : Nat, testClass lo hi text = true
      ↔ ∃ c ∈ text.data, lo ≤ c.toNat ∧ c.toNat ≤ hi := by
    intro lo hi
    simp [testClass]
  simp only [← key]
  unfold detectLanguage patterns
  simp only [List.find?]
  cases testClass 0x0900 0x097F text <;>
    cases testClass 0x0B80 0x0BFF text <;>
    cases testClass 0x0D00 0x0D7F text <;>
    cases testClass 0x0C00 0x0C7F text <;>
    simp

/-- C15, as the code has it. A supplied language that is not the empty string is
the language used, whatever scripts the text has; with no language supplied,
and with the empty string supplied, the detected language is used. -/
theorem C15_supplied_language_overrides (language text : String) (hne : language ≠ "") :
    detectedLang (some language) text = language
      ∧ detectedLang none text = detectLanguage text
      ∧ detectedLang (some "") text = detectLanguage text := by
  refine ⟨?_, rfl, rfl⟩
  simp [detectedLang, hne]

/-- The witness of C15: `tamil` supplied with a text in Devanagari. -/
theorem C15_supplied_language_overrides_witness :
    "tamil" ≠ ""
      ∧ detectedLang (some "tamil") (String.mk [Char.ofNat 0x0928, Char.ofNat 0x092E]) = "tamil" :=
  ⟨by decide,
    (C15_supplied_language_overrides "tamil" (String.mk [Char.ofNat 0x0928, Char.ofNat 0x092E])
      (by decide)).1⟩

/-- C15 as stated fails: the empty string supplied as language with a text in
Devanagari gives `hindi`, not the supplied value. -/
theorem C15_empty_language_is_detected :
    detectedLang (some "") (String.mk [Char.ofNat 0x0928, Char.ofNat 0x092E]) = "hindi"
      ∧ detectedLang (some "") (String.mk [Char.ofNat 0x0928, Char.ofNat 0x092E]) ≠ "" := by
  decide

/-- C16. The key is `intent`, an underscore and the query as received. For one
intent, two queries that differ in any character have different keys; a call
for the one leaves the entry under the key of the other as it was, so a later
call for the other returns the value and calls the providers it would have
without the first call; on a new instance it finds nothing and calls them. -/
theorem C16_key_keeps_query_exact (env1 env2 : Env) (now1 stamp1 now2 stamp2 : Int)
    (cache : Cache) (intent q1 q2 : String) (hne : q1 ≠ q2) :
    cacheKey intent q1 = intent ++ "_" ++ q1
      ∧ cacheKey intent q1 ≠ cacheKey intent q2
      ∧ (fetchRelevantData env1 now1 stamp1 cache q1 intent).cache.get (cacheKey intent q2)
        = cache.get (cacheKey intent q2)
      ∧ (fetchRelevantData env2 now2 stamp2
            (fetchRelevantData env1 now1 stamp1 cache q1 intent).cache q2 intent).value
        = (fetchRelevantData env2 now2 stamp2 cache q2 intent).value
      ∧ (fetchRelevantData env2 now2 stamp2
            (fetchRelevantData env1 now1 stamp1 cache q1 intent).cache q2 intent).invoked
        = (fetchRelevantData env2 now2 stamp2 cache q2 intent).invoked
      ∧ (fetchRelevantData env2 now2 stamp2
            (fetchRelevantData env1 now1 stamp1 [] q1 intent).cache q2 intent).invoked ≠ [] := by
  have hkey : cacheKey intent q1 ≠ cacheKey intent q2 :=
    fun h => hne (cacheKey_injective_query intent q1 q2 h)
  have hget := fetch_get_of_ne env1 now1 stamp1 cache q1 intent hkey
  have hcongr := fetch_congr_get env2 now2 stamp2 _ cache q2 intent hget
  refine ⟨rfl, hkey, hget, hcongr.1, hcongr.2, ?_⟩
  have hget0 := fetch_get_of_ne env1 now1 stamp1 [] q1 intent hkey
  rw [(fetch_congr_get env2 now2 stamp2 _ [] q2 intent hget0).2,
    (fetch_miss env2 now2 stamp2 [] q2 intent (liveEntry_nil _ _)).2.1]
  exact switchIntent_fst_ne_nil env2 q2 intent

/-- The witness of C16: `RTI` and `rti`, then `rti` with a blank in front. -/
theorem C16_key_keeps_query_exact_witness :
    "RTI" ≠ "rti"
      ∧ cacheKey "law" "RTI" ≠ cacheKey "law" "rti"
      ∧ " rti" ≠ "rti"
      ∧ cacheKey "law" " rti" ≠ cacheKey "law" "rti" :=
  ⟨by decide,
    (C16_key_keeps_query_exact builtin builtin 0 1 2 3 [] "law" "RTI" "rti" (by decide)).2.1,
    by decide,
    (C16_key_keeps_query_exact builtin builtin 0 1 2 3 [] "law" " rti" "rti" (by decide)).2.1⟩

/-- C17. Each of the six provider methods of the source resolves, for every
query `q`, to the item with its own fixed source and url and with its fixed
description followed by `q` as data; none raises and none resolves to `null`.
Being functions of `q`, two calls with the same `q` give equal items. -/
theorem C17_builtin_providers (q : String) :
    builtin Provider.fetchPRSData q
        = .fulfilled (some
            { source := "PRS Legislative Research"
              data := "Legislative analysis and bill information for: " ++ q
              url := "https://prsindia.org" })
      ∧ builtin Provider.fetchMyNetaData q
        = .fulfilled (some
            { source := "MyNeta (ADR)"
              data := "Representative profiles, criminal cases, and asset information for: " ++ q
              url := "https://myneta.info" })
      ∧ builtin Provider.fetchIndiaCodeData q
        = .fulfilled (some
            { source := "India Code"
              data := "Legal acts, sections, and amendments related to: " ++ q
              url := "https://indiacode.nic.in" })
      ∧ builtin Provider.fetchPIBFactCheck q
        = .fulfilled (some
            { source := "PIB Fact Check"
              data := "Official government fact-check and verification for: " ++ q
              url := "https://pib.gov.in" })
      ∧ builtin Provider.fetchGovernmentData q
        = .fulfilled (some
            { source := "Data.gov.in"
              data := "Government schemes, statistics, and public data for: " ++ q
              url := "https://data.gov.in" })
      ∧ builtin Provider.fetchECIData q
        = .fulfilled (some
            { source := "Election Commission of India"
              data := "Electoral data and constituency information for: " ++ q
              url := "https://eci.gov.in" })
      ∧ ∀ p : Provider, builtin p q ≠ .rejected ∧ builtin p q ≠ .fulfilled none := by
  refine ⟨rfl, rfl, rfl, rfl, rfl, rfl, ?_⟩
  intro p
  cases p <;>
    simp [builtin, fetchPRSData, fetchMyNetaData, fetchIndiaCodeData, fetchPIBFactCheck,
      fetchGovernmentData, fetchECIData]

/-- C19. The pairs intent `law`, query `foo_bar` and intent `law_foo`, query
`bar` are different and have the same key. After a call for the first pair on
a new instance, a call for the second made less than `cacheTimeout` after the
store returns the bundle of the first and calls no provider. -/
theorem C19_key_collision (env1 env2 : Env) (now1 stamp1 now2 stamp2 : Int)
    (hwin : now2 - stamp1 < cacheTimeout) :
    (("law", "foo_bar") : String × String) ≠ ("law_foo", "bar")
      ∧ cacheKey "law" "foo_bar" = cacheKey "law_foo" "bar"
      ∧ (fetchRelevantData env2 now2 stamp2
            (fetchRelevantData env1 now1 stamp1 [] "foo_bar" "law").cache "bar" "law_foo").value
        = (fetchRelevantData env1 now1 stamp1 [] "foo_bar" "law").value
      ∧ (fetchRelevantData env2 now2 stamp2
            (fetchRelevantData env1 now1 stamp1 [] "foo_bar" "law").cache "bar" "law_foo").invoked
        = [] := by
  have hkey : cacheKey "law_foo" "bar" = cacheKey "law" "foo_bar" := by decide
  have hget : (fetchRelevantData env1 now1 stamp1 [] "foo_bar" "law").cache.get
      (cacheKey "law_foo" "bar")
        = some { data := (fetchRelevantData env1 now1 stamp1 [] "foo_bar" "law").value
                 timestamp := stamp1 } := by
    rw [hkey, (fetch_miss env1 now1 stamp1 [] "foo_bar" "law" (liveEntry_nil _ _)).1]
    exact Cache.get_set_self _ _ _
  have hhit := fetch_hit env2 now2 stamp2
    (fetchRelevantData env1 now1 stamp1 [] "foo_bar" "law").cache "bar" "law_foo"
    (d := (fetchRelevantData env1 now1 stamp1 [] "foo_bar" "law").value)
    (by rw [liveEntry_of_get now2 hget, if_pos hwin])
  rw [hhit]
  exact ⟨by decide, by decide, rfl, rfl⟩

/-- The witness of C19: with the methods of the source the second pair gets the
bundle of the two law providers for `foo_bar`, where a new instance would give
it the bundle of the open-government-data provider for `bar`. -/
theorem C19_key_collision_witness :
    (10 : Int) - 1 < cacheTimeout
      ∧ (fetchRelevantData builtin 10 11
            (fetchRelevantData builtin 0 1 [] "foo_bar" "law").cache "bar" "law_foo").value
        = (fetchRelevantData builtin 0 1 [] "foo_bar" "law").value
      ∧ (fetchRelevantData builtin 0 1 [] "foo_bar" "law").value.source
        = "India Code, PRS Legislative Research"
      ∧ (fetchRelevantData builtin 10 11 [] "bar" "law_foo").value.source = "Data.gov.in" :=
  ⟨by decide, (C19_key_collision builtin builtin 0 1 10 11 (by decide)).2.2.1,
    by decide, by decide⟩

/-- C20. In `RAGSystem`, after `setCache(key, data)` at `t0` followed by any calls
that are neither a `setCache` of that key nor a `clearCache`, `getCached(key)`
at `t` returns `data` when `t - t0 < 1,800,000` and `null` otherwise, and in
both cases the entry written at `t0` is still stored afterwards. `getCached`
returns the map unchanged on every map, and on an instance where the key was
never set it returns `null`. -/
theorem C20_ragSystem_cache_contract {α : Type} (cache : RAGSystem.Store α) (key : String)
    (data : α) (t0 t : Int) (ops : List (Int × RAGSystem.Op α))
    (hops : ∀ op ∈ ops, RAGSystem.Op.writes key op.2 = false) :
    (t - t0 < 1800000 →
        (RAGSystem.getCached (RAGSystem.run (RAGSystem.setCache cache t0 key data) ops) t key).1
          = some data)
      ∧ (t - t0 ≥ 1800000 →
        (RAGSystem.getCached (RAGSystem.run (RAGSystem.setCache cache t0 key data) ops) t key).1
          = none)
      ∧ (RAGSystem.getCached (RAGSystem.run (RAGSystem.setCache cache t0 key data) ops) t key).2.get
          key = some { data := data, timestamp := t0 }
      ∧ (∀ (c : RAGSystem.Store α) (now : Int) (k : String),
          (RAGSystem.getCached c now k).2 = c)
      ∧ (RAGSystem.getCached (RAGSystem.run ([] : RAGSystem.Store α) ops) t key).1 = none := by
  have hget : (RAGSystem.run (RAGSystem.setCache cache t0 key data) ops).get key
      = some { data := data, timestamp := t0 } := by
    rw [RAGSystem.run_get key ops hops]
    exact RAGSystem.Store.get_set_eq _ _ _
  have hnone : (RAGSystem.run ([] : RAGSystem.Store α) ops).get key = none := by
    rw [RAGSystem.run_get key ops hops]
    rfl
  refine ⟨?_, ?_, ?_, RAGSystem.getCached_snd, ?_⟩
  · intro hlt
    have hlt2 : t - t0 < RAGSystem.cacheTimeout := by
      simpa [RAGSystem.cacheTimeout] using hlt
    simp [RAGSystem.getCached, hget, hlt2]
  · intro hge
    have hge2 : ¬ t - t0 < RAGSystem.cacheTimeout := by
      simpa [RAGSystem.cacheTimeout] using hge
    simp [RAGSystem.getCached, hget, hge2]
  · rw [RAGSystem.getCached_snd]
    exact hget
  · simp [RAGSystem.getCached, hnone]

/-- The witness of C20: an item set at 0 under `prs_rti`, then a read of it, a
`setCache` of another key and a read of that one; read again at 1,799,999. -/
theorem C20_ragSystem_cache_contract_witness :
    (∀ op ∈ [((5 : Int), RAGSystem.Op.getCached "prs_rti"),
              (6, RAGSystem.Op.setCache "pib_x" "y"),
              (1800000, RAGSystem.Op.getCached "pib_x")],
        RAGSystem.Op.writes "prs_rti" op.2 = false)
      ∧ (RAGSystem.getCached
          (RAGSystem.run (RAGSystem.setCache [] 0 "prs_rti" "item")
            [(5, RAGSystem.Op.getCached "prs_rti"), (6, RAGSystem.Op.setCache "pib_x" "y"),
             (1800000, RAGSystem.Op.getCached "pib_x")])
          1799999 "prs_rti").1 = some "item" :=
  have h : ∀ op ∈ [((5 : Int), RAGSystem.Op.getCached "prs_rti"),
      (6, RAGSystem.Op.setCache "pib_x" "y"), (1800000, RAGSystem.Op.getCached "pib_x")],
      RAGSystem.Op.writes "prs_rti" op.2 = false := by
    intro op hop
    simp only [List.mem_cons, List.mem_singleton, List.not_mem_nil, or_false] at hop
    rcases hop with rfl | rfl | rfl <;> decide
  ⟨h, (C20_ragSystem_cache_contract [] "prs_rti" "item" 0 1799999 _ h).1 (by decide)⟩

/-- C21. For intents among the five tags, equal keys mean equal intents and
equal queries, underscores in the queries or not. `detectIntent` only returns
these tags and `fact-check` is one of them. So for two different pairs of such
an intent and a query, a call for the one leaves the entry of the other as it
was, and a later call for the other returns the value and calls the providers
it would have without the first call. -/
theorem C21_key_injective_on_tags (env1 env2 : Env) (now1 stamp1 now2 stamp2 : Int)
    (cache : Cache) (i1 i2 q1 q2 : String)
    (h1 : i1 ∈ intentTags) (h2 : i2 ∈ intentTags) :
    (cacheKey i1 q1 = cacheKey i2 q2 → i1 = i2 ∧ q1 = q2)
      ∧ ((i1, q1) ≠ (i2, q2) →
          (fetchRelevantData env1 now1 stamp1 cache q1 i1).cache.get (cacheKey i2 q2)
              = cache.get (cacheKey i2 q2)
            ∧ (fetchRelevantData env2 now2 stamp2
                  (fetchRelevantData env1 now1 stamp1 cache q1 i1).cache q2 i2).value
              = (fetchRelevantData env2 now2 stamp2 cache q2 i2).value
            ∧ (fetchRelevantData env2 now2 stamp2
                  (fetchRelevantData env1 now1 stamp1 cache q1 i1).cache q2 i2).invoked
              = (fetchRelevantData env2 now2 stamp2 cache q2 i2).invoked)
      ∧ (∀ text : String, detectIntent text ∈ intentTags)
      ∧ "fact-check" ∈ intentTags := by
  refine ⟨cacheKey_injective_tags q1 q2 h1 h2, ?_, detectIntent_mem_intentTags, by decide⟩
  intro hne
  have hkey : cacheKey i1 q1 ≠ cacheKey i2 q2 := by
    intro h
    obtain ⟨hi, hq⟩ := cacheKey_injective_tags q1 q2 h1 h2 h
    exact hne (by rw [hi, hq])
  have hget := fetch_get_of_ne env1 now1 stamp1 cache q1 i1 hkey
  have hcongr := fetch_congr_get env2 now2 stamp2 _ cache q2 i2 hget
  exact ⟨hget, hcongr.1, hcongr.2⟩

/-- The witness of C21: `law` with `foo_bar` against `general` with `foo_bar`,
and against `law` with `foo`. -/
theorem C21_key_injective_on_tags_witness :
    "law" ∈ intentTags ∧ "general" ∈ intentTags
      ∧ (("law", "foo_bar") : String × String) ≠ ("general", "foo_bar")
      ∧ (fetchRelevantData builtin 0 1 [] "foo_bar" "law").cache.get
          (cacheKey "general" "foo_bar") = Cache.get [] (cacheKey "general" "foo_bar")
      ∧ (cacheKey "law" "foo_bar" = cacheKey "law" "foo" → "law" = "law" ∧ "foo_bar" = "foo") :=
  ⟨by decide, by decide, by decide,
    ((C21_key_injective_on_tags builtin builtin 0 1 2 3 [] "law" "general" "foo_bar" "foo_bar"
      (by decide) (by decide)).2.1 (by decide)).1,
    (C21_key_injective_on_tags builtin builtin 0 1 2 3 [] "law" "law" "foo_bar" "foo"
      (by decide) (by decide)).1⟩

/-- C23. On new instances, for every query and every intent other than
`representative`, the bundle of `RAGSystem.fetchRelevantData` and the bundle of
`IndianCivicRAG.fetchRelevantData` have the same `data` and the same `urls`,
and the `sources` of the first joined by `", "` are the `source` of the second. -/
theorem C23_aggregators_agree (times : Provider → Int × Int) (now stamp : Int)
    (query intent : String) (hrep : intent ≠ "representative") :
    (RAGSystem.fetchRelevantData times [] query intent).1.data
        = (fetchRelevantData builtin now stamp [] query intent).value.data
      ∧ some (RAGSystem.fetchRelevantData times [] query intent).1.urls
        = (fetchRelevantData builtin now stamp [] query intent).value.urls
      ∧ join ", " (RAGSystem.fetchRelevantData times [] query intent).1.sources
        = (fetchRelevantData builtin now stamp [] query intent).value.source := by
  have hres := tryResults_builtin query intent
  rw [fetch_miss_items builtin now stamp [] query intent (liveEntry_nil _ _)
    (by rw [hres]; split_ifs <;> simp), hres]
  unfold RAGSystem.fetchRelevantData
  simp only [RAGSystem.switchIntent_new]
  by_cases h1 : intent = "law"
  · simp [h1, combine]
  · by_cases h3 : intent = "fact-check"
    · simp [h3, combine]
    · simp [h1, hrep, h3, combine]

/-- The witness of C23: the query `rti` with intent `law`. -/
theorem C23_aggregators_agree_witness :
    "law" ≠ "representative"
      ∧ join ", " (RAGSystem.fetchRelevantData (fun _ => (0, 1)) [] "rti" "law").1.sources
        = (fetchRelevantData builtin 0 1 [] "rti" "law").value.source
      ∧ (fetchRelevantData builtin 0 1 [] "rti" "law").value.source
        = "India Code, PRS Legislative Research" :=
  ⟨by decide, (C23_aggregators_agree (fun _ => (0, 1)) 0 1 "rti" "law" (by decide)).2.2,
    by decide⟩

set_option maxRecDepth 100000 in
/-- C22 fails at the first template. `validatePromptNeutrality` returns `false`
exactly when the lower-cased prompt has one of the twelve bias phrases as a
substring; the lower case of `QA_PROMPT` has `vote for` (in its rule `Never
recommend who to vote for or support any political party`), so the check
returns `false` on it. The other seven of the eight templates pass. -/
theorem C22_QA_PROMPT_fails_check :
    validatePromptNeutrality CIVIC_PROMPTS.QA_PROMPT = false
      ∧ includes (toLowerCase CIVIC_PROMPTS.QA_PROMPT) "vote for" = true
      ∧ (CIVIC_PROMPTS.map fun t => (t.1, validatePromptNeutrality t.2))
        = [("QA_PROMPT", false), ("POLICY_SUMMARY_PROMPT", true), ("FACT_CHECK_PROMPT", true),
           ("GRIEVANCE_PROMPT", true), ("REPRESENTATIVE_INFO_PROMPT", true),
           ("LEGAL_EXPLANATION_PROMPT", true), ("SCHEME_INFO_PROMPT", true),
           ("ELECTION_INFO_PROMPT", true)]
      ∧ biasWords.length = 12
      ∧ ∀ prompt : String,
          (validatePromptNeutrality prompt = false
            ↔ ∃ w ∈ biasWords, Contains (toLowerCase prompt) w) := by
  refine ⟨validatePromptNeutrality_QA_PROMPT, by decide, ?_, by decide,
    validatePromptNeutrality_eq_false_iff⟩
  simp only [CIVIC_PROMPTS, List.map, validatePromptNeutrality_QA_PROMPT,
    validatePromptNeutrality_POLICY_SUMMARY_PROMPT, validatePromptNeutrality_FACT_CHECK_PROMPT,
    validatePromptNeutrality_GRIEVANCE_PROMPT,
    validatePromptNeutrality_REPRESENTATIVE_INFO_PROMPT,
    validatePromptNeutrality_LEGAL_EXPLANATION_PROMPT,
    validatePromptNeutrality_SCHEME_INFO_PROMPT, validatePromptNeutrality_ELECTION_INFO_PROMPT]

end Netaverse
